import Mathlib

/-! Postal code to temperature: front service (service-a) and back service (service-b).

A shallow embedding of the two HTTP handlers of the repository
(`service-a/main.go`, `service-b/main.go`) and of the library calls they
rely on (`regexp.MatchString`, `url.Values.Get`, `http.ResponseWriter`).

Modelling conventions.

* A Go `string` is a Lean `String`, read as the sequence of runes that
  `regexp` and `encoding/json` see.
* The network and the JSON decoder are the environment: an outbound `GET`
  is answered by a function of the URL, a `Decode` by a function of the
  body. Every outbound request is logged, in order.
* A `float64` is an IEEE 754 binary64 value: a finite dyadic fraction with a sign, an
  infinity, or NaN. Arithmetic computes the exact result and rounds it to the nearest value,
  ties to even; a result beyond the largest finite value is an infinity.
* `json.Encoder.Encode` fails on a `float64` that is not finite and then writes nothing.
* Tracing spans do not influence the responses and are left out.
-/

namespace CepWeather

set_option exponentiation.threshold 400
set_option maxRecDepth 20000

/-! ## `regexp`: the fragment used by the pattern `^[0-9]{8}$` -/

/-- Regular expressions, restricted to the operators of the postal-code pattern. -/
inductive Regexp where
  | beginText : Regexp
  | endText : Regexp
  | charRange (lo hi : Char) : Regexp
  | cat (a b : Regexp) : Regexp
  | rep (r : Regexp) (n : Nat) : Regexp

/-- A matcher position: whether no rune has been consumed since the start of the text, and the
runes still to be read. -/
abbrev Pos := Bool × List Char

/-- Apply a position transformer `n` times, collecting every reachable position. -/
def iterStep (f : Pos → List Pos) : Nat → Pos → List Pos
  | 0, p => [p]
  | n + 1, p => (f p).flatMap (iterStep f n)

/-- All positions at which a match of the expression, started at the given position, can end. -/
def Regexp.step : Regexp → Pos → List Pos
  | .beginText, p => if p.1 then [p] else []
  | .endText, p => if p.2.isEmpty then [p] else []
  | .charRange lo hi, p =>
    match p.2 with
    | [] => []
    | c :: cs => if lo ≤ c ∧ c ≤ hi then [(false, cs)] else []
  | .cat a b, p => (a.step p).flatMap b.step
  | .rep r n, p => iterStep r.step n p

/-- Whether a match starts at some suffix of the text (the text start is the first candidate). -/
def searchFrom (re : Regexp) : Bool → List Char → Bool
  | atStart, [] => !(re.step (atStart, [])).isEmpty
  | atStart, c :: cs => !(re.step (atStart, c :: cs)).isEmpty || searchFrom re false cs

/-- Go `regexp.MatchString`, for an already parsed pattern: the text contains a match. -/
def MatchString (re : Regexp) (s : String) : Bool :=
  searchFrom re true s.data

/-- The pattern `^[0-9]{8}$` of both handlers, parsed. -/
def cepPattern : Regexp :=
  .cat .beginText (.cat (.rep (.charRange '0' '9') 8) .endText)

/-- Specification side of the format check: exactly eight ASCII digits. -/
def IsEightDigits (s : String) : Prop :=
  s.data.length = 8 ∧ ∀ c ∈ s.data, '0' ≤ c ∧ c ≤ '9'

instance (s : String) : Decidable (IsEightDigits s) :=
  inferInstanceAs (Decidable (s.data.length = 8 ∧ ∀ c ∈ s.data, '0' ≤ c ∧ c ≤ '9'))

/-! ## `net/url`: reading a query parameter -/

/-- Go `strings.Cut` at a one-character separator: the text before the first separator and the
text after it (all of the text and nothing, when the separator does not occur). -/
def cut (sep : Char) : List Char → List Char × List Char
  | [] => ([], [])
  | c :: cs => if c = sep then ([], cs) else ((c :: (cut sep cs).1), (cut sep cs).2)

/-- The pieces between separators, as the loop of repeated `strings.Cut` calls visits them. -/
def splitOnChar (sep : Char) : List Char → List (List Char)
  | [] => [[]]
  | c :: cs =>
    if c = sep then [] :: splitOnChar sep cs
    else
      match splitOnChar sep cs with
      | [] => [[c]]
      | seg :: segs => (c :: seg) :: segs

/-- Go `url.ishex`. -/
def ishex (c : Char) : Bool :=
  ('0' ≤ c && c ≤ '9') || ('a' ≤ c && c ≤ 'f') || ('A' ≤ c && c ≤ 'F')

/-- Go `url.unhex`. -/
def unhex (c : Char) : Nat :=
  if '0' ≤ c ∧ c ≤ '9' then c.toNat - '0'.toNat
  else if 'a' ≤ c ∧ c ≤ 'f' then c.toNat - 'a'.toNat + 10
  else if 'A' ≤ c ∧ c ≤ 'F' then c.toNat - 'A'.toNat + 10
  else 0

/-- The UTF-8 encoding of a rune: the bytes a Go string holds for it. -/
def utf8Bytes (c : Char) : List Nat :=
  (String.utf8EncodeChar c).map fun b => b.toNat

/-- The bytes of the string Go `url.QueryUnescape` returns: `%XX` becomes the byte of that
value, `+` a space, every other rune stays as its bytes; a `%` not followed by two hexadecimal
digits is an error. -/
def unescapeBytes : List Char → Option (List Nat)
  | [] => some []
  | c :: rest =>
    if c = '%' then
      match rest with
      | a :: b :: rest2 =>
        if ishex a && ishex b then
          (unescapeBytes rest2).map (fun t => (unhex a * 16 + unhex b) :: t)
        else none
      | _ => none
    else if c = '+' then (unescapeBytes rest).map (fun t => 32 :: t)
    else (unescapeBytes rest).map (fun t => utf8Bytes c ++ t)

/-- Go `utf8.RuneError`, the rune U+FFFD. -/
def RuneError : Char := Char.ofNat 0xFFFD

/-- Whether a byte is a UTF-8 continuation byte. -/
def isCont (b : Nat) : Bool := 0x80 ≤ b && b ≤ 0xBF

/-- Go `utf8.DecodeRune`: the first rune of a byte sequence and its width in bytes; a byte that
starts no well-formed encoding is `RuneError` of width 1. -/
def DecodeRune : List Nat → Char × Nat
  | [] => (RuneError, 0)
  | b0 :: rest =>
    if b0 < 0x80 then (Char.ofNat b0, 1)
    else
      match rest with
      | b1 :: rest1 =>
        if 0xC2 ≤ b0 && b0 ≤ 0xDF then
          if isCont b1 then (Char.ofNat (b0 % 32 * 64 + b1 % 64), 2) else (RuneError, 1)
        else
          match rest1 with
          | b2 :: rest2 =>
            if 0xE0 ≤ b0 && b0 ≤ 0xEF then
              if (if b0 = 0xE0 then 0xA0 ≤ b1 && b1 ≤ 0xBF
                  else if b0 = 0xED then 0x80 ≤ b1 && b1 ≤ 0x9F else isCont b1) && isCont b2 then
                (Char.ofNat (b0 % 16 * 4096 + b1 % 64 * 64 + b2 % 64), 3)
              else (RuneError, 1)
            else
              match rest2 with
              | b3 :: _ =>
                if 0xF0 ≤ b0 && b0 ≤ 0xF4 &&
                    (if b0 = 0xF0 then 0x90 ≤ b1 && b1 ≤ 0xBF
                     else if b0 = 0xF4 then 0x80 ≤ b1 && b1 ≤ 0x8F else isCont b1) &&
                    isCont b2 && isCont b3 then
                  (Char.ofNat (b0 % 8 * 262144 + b1 % 64 * 4096 + b2 % 64 * 64 + b3 % 64), 4)
                else (RuneError, 1)
              | [] => (RuneError, 1)
          | [] => (RuneError, 1)
      | [] => (RuneError, 1)

/-- The runes of a byte string, as a `range` loop and `regexp` read it: one `DecodeRune` after
the other; `skip` counts the bytes still belonging to the rune decoded last. -/
def decodeRunes : Nat → List Nat → List Char
  | _, [] => []
  | skip + 1, _ :: rest => decodeRunes skip rest
  | 0, b :: rest =>
    (DecodeRune (b :: rest)).1 :: decodeRunes ((DecodeRune (b :: rest)).2 - 1) rest

/-- Go `url.QueryUnescape`, the result read as runes: `%XX` is one byte of the result, so
`%C3%A3` is the single rune `ã` and a byte that is not part of a well-formed encoding reads as
`RuneError`. -/
def QueryUnescape (l : List Char) : Option (List Char) :=
  (unescapeBytes l).map (decodeRunes 0)

/-- One iteration of the loop of Go `url.parseQuery`: the key and value of a piece, when the piece
is kept. -/
def parsePair (piece : List Char) : Option (String × String) :=
  if ';' ∈ piece then none
  else if piece = [] then none
  else
    match QueryUnescape (cut '=' piece).1, QueryUnescape (cut '=' piece).2 with
    | some key, some value => some (String.mk key, String.mk value)
    | _, _ => none

/-- Go `url.Values`, as the list of key and value pairs in the order they were added. -/
abbrev Values := List (String × String)

/-- Go `(*url.URL).Query`: the pairs of the raw query, pieces with an error dropped. -/
def Query (rawQuery : String) : Values :=
  (splitOnChar '&' rawQuery.data).filterMap parsePair

/-- Go `url.Values.Get`: the first value of the key, or the empty string. -/
def Values.Get (v : Values) (key : String) : String :=
  match v.find? (fun kv => kv.1 == key) with
  | some kv => kv.2
  | none => ""

/-- The `RawQuery` that `url.Parse` reads off a URL: what stands after the first `?` of the part
before the first `#`. -/
def rawQueryOf (url : String) : String :=
  String.mk (cut '?' (cut '#' url.data).1).2

/-- Go `url.shouldEscape` in query-component mode. -/
def shouldEscape (c : Char) : Bool :=
  !(c.isAlphanum || c = '-' || c = '_' || c = '.' || c = '~')

/-- Two upper-case hexadecimal digits after a `%`, for one byte. -/
def escapeByte (b : Nat) : List Char :=
  ['%', "0123456789ABCDEF".data.getD (b / 16) '0', "0123456789ABCDEF".data.getD (b % 16) '0']

/-- Go `url.QueryEscape`: a space becomes `+`, every byte of a character outside
`A-Z a-z 0-9 - _ . ~` becomes `%XX`. -/
def QueryEscape (s : String) : String :=
  String.mk (s.data.flatMap fun c =>
    if c = ' ' then ['+']
    else if shouldEscape c then (String.utf8EncodeChar c).flatMap fun b => escapeByte b.toNat
    else [c])

/-! ## `float64` -/

/-- Halvings of a number until it is below 2, at most `fuel` of them. -/
def ilog2Aux : Nat → Nat → Nat
  | 0, _ => 0
  | fuel + 1, n => if n < 2 then 0 else ilog2Aux fuel (n / 2) + 1

/-- Floor of the binary logarithm of a positive number. -/
def ilog2 (n : Nat) : Nat := ilog2Aux n n

/-- Floor of the binary logarithm of the positive fraction `n / d`. -/
def floorLog2 (n d : Nat) : Int :=
  if d <<< (ilog2 n - ilog2 d) ≤ n <<< (ilog2 d - ilog2 n) then (ilog2 n : Int) - (ilog2 d : Int)
  else (ilog2 n : Int) - (ilog2 d : Int) - 1

/-- The fraction `n / d` rounded to the nearest natural number, a tie to the even one. -/
def roundHalfEven (n d : Nat) : Nat :=
  if 2 * (n % d) < d then n / d
  else if d < 2 * (n % d) then n / d + 1
  else if (n / d) % 2 = 0 then n / d else n / d + 1

/-- Go `float64`, an IEEE 754 binary64 value. A finite value is `num / 2 ^ k`, negated when
`negative` is set (which also tells the two zeros apart), the fraction in lowest terms: `k` is 0
or `num` is odd. -/
inductive Float64 where
  | finite (negative : Bool) (num k : Nat) : Float64
  | inf (negative : Bool) : Float64
  | nan : Float64
  deriving DecidableEq

/-- Whether a value is neither an infinity nor NaN. -/
def Float64.isFinite : Float64 → Bool
  | .finite _ _ _ => true
  | _ => false

/-- The `float64` nearest to the fraction `n / d` (`d` positive), negated when `negative` is set:
53 significant bits above `2 ^ -1022`, multiples of `2 ^ -1074` below, ties to the even
significand, and an infinity when the rounded magnitude reaches `2 ^ 1024`. This is the rounding
of every arithmetic operation and of the conversion of a decimal numeral. -/
def Float64.round (negative : Bool) (n d : Nat) : Float64 :=
  if n = 0 then .finite negative 0 0
  else
    let q : Int := max (floorLog2 n d - 52) (-1074)
    let m := roundHalfEven (n <<< (-q).toNat) (d <<< q.toNat)
    if 1 <<< 2098 ≤ m <<< (q + 1074).toNat then .inf negative
    else .finite negative
      ((m <<< q.toNat) / Nat.gcd (m <<< q.toNat) (1 <<< (-q).toNat))
      (ilog2 ((1 <<< (-q).toNat) / Nat.gcd (m <<< q.toNat) (1 <<< (-q).toNat)))

/-- Conversion of the non-negative decimal constant `n / d` of the source text to `float64`. -/
def Float64.const (n d : Nat) : Float64 := Float64.round false n d

/-- The exact sum of two finite values, rounded: a zero sum is negative only when both terms
are. -/
def Float64.roundSum (s : Bool) (a j : Nat) (t : Bool) (b k : Nat) : Float64 :=
  let x : Int := (if s then -1 else 1) * ((a <<< (max j k - j) : Nat) : Int) +
    (if t then -1 else 1) * ((b <<< (max j k - k) : Nat) : Int)
  if x = 0 then .finite (s && t) 0 0
  else Float64.round (decide (x < 0)) x.natAbs (1 <<< max j k)

/-- Go `x * y` on `float64`. -/
def Float64.mul : Float64 → Float64 → Float64
  | .finite s a j, .finite t b k => Float64.round (s != t) (a * b) (1 <<< (j + k))
  | .finite s a _, .inf t => if a = 0 then .nan else .inf (s != t)
  | .inf s, .finite t b _ => if b = 0 then .nan else .inf (s != t)
  | .inf s, .inf t => .inf (s != t)
  | _, _ => .nan

/-- Go `x + y` on `float64`. -/
def Float64.add : Float64 → Float64 → Float64
  | .finite s a j, .finite t b k => Float64.roundSum s a j t b k
  | .finite _ _ _, .inf t => .inf t
  | .inf s, .finite _ _ _ => .inf s
  | .inf s, .inf t => if s = t then .inf s else .nan
  | _, _ => .nan

/-- The fused multiply-add `x * y + z`: the exact product enters the sum, which is rounded
once. -/
def Float64.fma : Float64 → Float64 → Float64 → Float64
  | .finite s a i, .finite t b j, .finite u c k => Float64.roundSum (s != t) (a * b) (i + j) u c k
  | .finite _ _ _, .finite _ _ _, z => z
  | x, y, z => (x.mul y).add z

/-- The rational number a finite value stands for (0 for an infinity and for NaN). -/
def Float64.toRat : Float64 → ℚ
  | .finite s n k => (if s then -1 else 1) * (n : ℚ) / 2 ^ k
  | _ => 0

/-! ## `net/http`: requests, responses and the response writer -/

/-- A JSON scalar written by the handlers: a string, or the number that `encoding/json` writes
for a finite `float64` (the shortest decimal numeral that reads back as that value). -/
inductive JValue where
  | str (s : String) : JValue
  | num (x : Float64) : JValue
  deriving DecidableEq

/-- A JSON object as `json.Encoder` writes a Go map: its fields, keys in increasing order. -/
abbrev JObject := List (String × JValue)

/-- A piece of an HTTP body: bytes of unknown origin, or the encoding of a JSON object. -/
inductive Chunk where
  | raw (bytes : String) : Chunk
  | encoded (v : JObject) : Chunk
  deriving DecidableEq

/-- An HTTP body. -/
abbrev Body := List Chunk

deriving instance DecidableEq for Except

/-- What a handler reads of an `*http.Request`. -/
structure Request where
  Method : String
  RawQuery : String
  Body : Body

/-- What the program reads of an `*http.Response`. -/
structure HttpResponse where
  StatusCode : Nat
  Body : Body
  deriving DecidableEq

/-- State of an `http.ResponseWriter`: the status line once it is written, the body written so
far, and how many times the handler called `WriteHeader`. -/
structure ResponseWriter where
  status : Option Nat := none
  body : Body := []
  headerCalls : Nat := 0
  deriving DecidableEq

/-- Go `w.WriteHeader(code)`: the first call fixes the status, later calls change nothing. The
code is recorded as given; it stands for a three-digit HTTP status code. -/
def ResponseWriter.WriteHeader (w : ResponseWriter) (code : Nat) : ResponseWriter :=
  { status := some (w.status.getD code), body := w.body, headerCalls := w.headerCalls + 1 }

/-- Go `w.Write(b)`: writes status 200 first when no status was written. -/
def ResponseWriter.Write (w : ResponseWriter) (b : Body) : ResponseWriter :=
  { status := some (w.status.getD 200), body := w.body ++ b, headerCalls := w.headerCalls }

/-- A Go value stored in a map that is handed to `json.Encoder`. -/
inductive GoValue where
  | string (s : String) : GoValue
  | float64 (x : Float64) : GoValue
  deriving DecidableEq

/-- A Go map with string keys, listed with its keys in increasing order (the order in which
`encoding/json` visits them). -/
abbrev GoMap := List (String × GoValue)

/-- Encoding of one value by `encoding/json`: a `float64` that is an infinity or NaN is an
`UnsupportedValueError`. -/
def marshalValue : GoValue → Option JValue
  | .string s => some (JValue.str s)
  | .float64 x => if x.isFinite then some (JValue.num x) else none

/-- Go `json.Marshal` of a map: the object, or nothing when a value cannot be encoded. -/
def Marshal : GoMap → Option JObject
  | [] => some []
  | (key, v) :: rest =>
    match marshalValue v, Marshal rest with
    | some jv, some obj => some ((key, jv) :: obj)
    | _, _ => none

/-- Go `json.NewEncoder(w).Encode(v)`: the value is encoded in full before anything is written,
so when the encoding fails nothing reaches `w` (the handlers drop the returned error). -/
def ResponseWriter.Encode (w : ResponseWriter) (v : GoMap) : ResponseWriter :=
  match Marshal v with
  | some obj => w.Write [Chunk.encoded obj]
  | none => w

/-- Go `io.Copy(w, resp.Body)`: an empty body causes no `Write`. -/
def ResponseWriter.Copy (w : ResponseWriter) (b : Body) : ResponseWriter :=
  if b = [] then w else w.Write b

/-- The response a client receives once the handler has returned. -/
def ResponseWriter.response (w : ResponseWriter) : HttpResponse :=
  { StatusCode := w.status.getD 200, Body := w.body }

/-- An effect of a handler on its environment. -/
inductive Effect where
  | decodeBody : Effect
  | get (url : String) : Effect
  deriving DecidableEq

/-- Outcome of one handler invocation: the response writer at return and the effects, in order. -/
structure Run where
  w : ResponseWriter
  log : List Effect
  deriving DecidableEq

/-- The Go map `map[string]string{"message": text}`. -/
def message (text : String) : GoMap := [("message", GoValue.string text)]

/-! ## service-a: the `/cep` handler -/

/-- Environment of the front service. -/
structure FrontEnv where
  /-- Value of the environment variable `SERVICE_B_URL`, empty when unset. -/
  SERVICE_B_URL : String
  /-- Go `json.NewDecoder(r.Body).Decode(&body)`: the decoded `cep` field, or the error text. -/
  decodeCEP : Body → Except String String
  /-- Go `http.NewRequestWithContext` followed by `client.Do`, by URL. -/
  Do : String → Except String HttpResponse

/-- URL requested by `callServiceB`. -/
def serviceBURL (env : FrontEnv) (cep : String) : String :=
  (if env.SERVICE_B_URL = "" then "http://service-b:8082" else env.SERVICE_B_URL)
    ++ "/weather?cep=" ++ cep

/-- Go `callServiceB` of service-a. -/
def callServiceB (env : FrontEnv) (cep : String) : Except String HttpResponse × List Effect :=
  (env.Do (serviceBURL env cep), [Effect.get (serviceBURL env cep)])

/-- The handler registered on `/cep` by service-a. -/
def cepHandler (env : FrontEnv) (r : Request) : Run :=
  let w : ResponseWriter := {}
  if r.Method ≠ "POST" then
    ⟨(w.WriteHeader 405).Encode (message "use POST"), []⟩
  else
    match env.decodeCEP r.Body with
    | .error _ => ⟨(w.WriteHeader 400).Encode (message "invalid json"), [Effect.decodeBody]⟩
    | .ok cep =>
      if !MatchString cepPattern cep then
        ⟨(w.WriteHeader 422).Encode (message "invalid zipcode"), [Effect.decodeBody]⟩
      else
        match callServiceB env cep with
        | (.error err, log) =>
          ⟨(w.WriteHeader 500).Encode (message err), Effect.decodeBody :: log⟩
        | (.ok resp, log) =>
          ⟨(w.WriteHeader resp.StatusCode).Copy resp.Body, Effect.decodeBody :: log⟩

/-! ## service-b: the `/weather` handler -/

/-- A Go `error` of service-b: the sentinel `ErrCEPNotFound`, or any other error with its text. -/
inductive GoError where
  | ErrCEPNotFound : GoError
  | other (text : String) : GoError
  deriving DecidableEq

/-- Go `err.Error()`. -/
def GoError.Error : GoError → String
  | .ErrCEPNotFound => "cep not found"
  | .other text => text

/-- Go `errors.Is(err, ErrCEPNotFound)`. -/
def GoError.isCEPNotFound : GoError → Bool
  | .ErrCEPNotFound => true
  | .other _ => false

/-- The fields service-b decodes from the lookup payload; an absent field has its zero value. -/
structure ViaCEPData where
  Localidade : String
  Erro : Bool
  deriving DecidableEq

/-- Environment of the back service. -/
structure BackEnv where
  /-- Value of the environment variable `WEATHER_API_KEY`. -/
  weatherAPIKey : String
  /-- Go `http.NewRequestWithContext` followed by `client.Do`, by URL. -/
  Do : String → Except String HttpResponse
  /-- Go `json.NewDecoder(resp.Body).Decode(&data)` on a lookup payload. -/
  decodeViaCEP : Body → Except String ViaCEPData
  /-- Go `json.NewDecoder(resp.Body).Decode(&data)` on a weather payload: `current.temp_c`. -/
  decodeWeather : Body → Except String Float64
  /-- Whether the compiler fuses `c*1.8 + 32` into one multiply-add with a single rounding, which
  the Go specification leaves to the implementation (the gc compiler does on arm64, not on
  amd64). -/
  fusedMulAdd : Bool

/-- URL of the lookup API for a postal code. -/
def viaCEPURL (cep : String) : String :=
  "https://viacep.com.br/ws/" ++ cep ++ "/json/"

/-- URL of the weather API for a city. -/
def weatherURL (env : BackEnv) (city : String) : String :=
  "https://api.weatherapi.com/v1/current.json?key=" ++ env.weatherAPIKey ++ "&q=" ++
    QueryEscape city

/-- Go `fetchCityFromCEP` of service-b. -/
def fetchCityFromCEP (env : BackEnv) (cep : String) : Except GoError String × List Effect :=
  let url := viaCEPURL cep
  match env.Do url with
  | .error e => (.error (.other e), [Effect.get url])
  | .ok resp =>
    if resp.StatusCode ≠ 200 then
      (.error (.other ("ViaCEP status: " ++ toString resp.StatusCode)), [Effect.get url])
    else
      match env.decodeViaCEP resp.Body with
      | .error e => (.error (.other e), [Effect.get url])
      | .ok data =>
        if data.Erro then (.error .ErrCEPNotFound, [Effect.get url])
        else (.ok data.Localidade, [Effect.get url])

/-- Go `fetchTemperatureCelsius` of service-b. -/
def fetchTemperatureCelsius (env : BackEnv) (city : String) :
    Except GoError Float64 × List Effect :=
  let url := weatherURL env city
  match env.Do url with
  | .error e => (.error (.other e), [Effect.get url])
  | .ok resp =>
    if resp.StatusCode ≠ 200 then
      (.error (.other ("WeatherAPI status: " ++ toString resp.StatusCode)), [Effect.get url])
    else
      match env.decodeWeather resp.Body with
      | .error e => (.error (.other e), [Effect.get url])
      | .ok tempC => (.ok tempC, [Effect.get url])

/-- Go `celsiusToFahrenheit`: `c*1.8 + 32`, the constants converted to `float64`; the product
and the sum are rounded one after the other, or together when the compiler fuses them. -/
def celsiusToFahrenheit (fused : Bool) (c : Float64) : Float64 :=
  if fused then Float64.fma c (Float64.const 18 10) (Float64.const 32 1)
  else (c.mul (Float64.const 18 10)).add (Float64.const 32 1)

/-- Go `celsiusToKelvin`: `c + 273`. -/
def celsiusToKelvin (c : Float64) : Float64 :=
  c.add (Float64.const 273 1)

/-- The map `resp` of a successful weather query. -/
def weatherResult (city : String) (tempC tempF tempK : Float64) : GoMap :=
  [("city", GoValue.string city), ("temp_C", GoValue.float64 tempC),
   ("temp_F", GoValue.float64 tempF), ("temp_K", GoValue.float64 tempK)]

/-- The handler registered on `/weather` by service-b. -/
def weatherHandler (env : BackEnv) (r : Request) : Run :=
  let w : ResponseWriter := {}
  let cep := (Query r.RawQuery).Get "cep"
  if !MatchString cepPattern cep then
    ⟨(w.WriteHeader 422).Encode (message "invalid zipcode"), []⟩
  else
    match fetchCityFromCEP env cep with
    | (.error err, log) =>
      if err.isCEPNotFound then
        ⟨(w.WriteHeader 404).Encode (message "can not find zipcode"), log⟩
      else
        ⟨(w.WriteHeader 500).Encode (message err.Error), log⟩
    | (.ok city, log) =>
      match fetchTemperatureCelsius env city with
      | (.error err, log2) =>
        ⟨(w.WriteHeader 500).Encode (message err.Error), log ++ log2⟩
      | (.ok tempC, log2) =>
        ⟨(w.WriteHeader 200).Encode
            (weatherResult city tempC (celsiusToFahrenheit env.fusedMulAdd tempC)
              (celsiusToKelvin tempC)),
          log ++ log2⟩

/-! ## The two services composed -/

/-- The back service as the front service reaches it: the request for a URL is served by the
`/weather` handler on the query of that URL. -/
def serveWeather (env : BackEnv) (url : String) : Run :=
  weatherHandler env { Method := "GET", RawQuery := rawQueryOf url, Body := [] }

/-! ## Concrete requests and environments -/

/-- The request body `{"cep": cep}`. -/
def cepBody (cep : String) : Body :=
  [Chunk.raw ("\x7b\"cep\":\"" ++ cep ++ "\"\x7d")]

/-- A body decoder that knows the bodies `cepBody` of four postal codes and rejects all else. -/
def demoDecodeCEP (b : Body) : Except String String :=
  if b = cepBody "123" then .ok "123"
  else if b = cepBody "01001000" then .ok "01001000"
  else if b = cepBody "00000000" then .ok "00000000"
  else if b = cepBody "99999999" then .ok "99999999"
  else .error "invalid character"

/-- A front service with the default back-service address and no reachable back service. -/
def demoFrontOffline : FrontEnv where
  SERVICE_B_URL := ""
  decodeCEP := demoDecodeCEP
  Do := fun _ => .error "dial tcp: connection refused"

/-- A front service whose back service answers every request with status 418 and a fixed body. -/
def demoFrontTeapot : FrontEnv where
  SERVICE_B_URL := ""
  decodeCEP := demoDecodeCEP
  Do := fun _ => .ok { StatusCode := 418, Body := [Chunk.raw "teapot"] }

/-- A `POST /cep` request with the given body. -/
def postCep (b : Body) : Request := { Method := "POST", RawQuery := "", Body := b }

/-- A `GET /weather` request with the given raw query. -/
def getWeather (rawQuery : String) : Request := { Method := "GET", RawQuery := rawQuery, Body := [] }

/-- Lookup payload of the postal code `01001000`. -/
def lookupSaoPaulo : Body := [Chunk.raw "\x7b\"localidade\":\"São Paulo\",\"erro\":false\x7d"]

/-- Lookup payload of an unknown postal code. -/
def lookupErro : Body := [Chunk.raw "\x7b\"erro\":true\x7d"]

/-- Lookup payload without a city and without an error flag. -/
def lookupEmpty : Body := [Chunk.raw "\x7b\x7d"]

/-- Weather payload with 25 degrees Celsius. -/
def weather25 : Body := [Chunk.raw "\x7b\"current\":\x7b\"temp_c\":25.0\x7d\x7d"]

/-- Weather payload with `1e308` degrees Celsius. -/
def weather1e308 : Body := [Chunk.raw "\x7b\"current\":\x7b\"temp_c\":1e308\x7d\x7d"]

/-- Weather payload with 3.6 degrees Celsius. -/
def weather3p6 : Body := [Chunk.raw "\x7b\"current\":\x7b\"temp_c\":3.6\x7d\x7d"]

/-- A decoder of the three weather payloads: the numeral of `temp_c` converted to `float64`. -/
def demoDecodeWeather (b : Body) : Except String Float64 :=
  if b = weather25 then .ok (Float64.round false 25 1)
  else if b = weather1e308 then .ok (Float64.round false (10 ^ 308) 1)
  else if b = weather3p6 then .ok (Float64.round false 36 10)
  else .error "unexpected end of JSON input"

/-- A back service environment: `01001000` is in São Paulo, `00000000` is unknown, the lookup of
`99999999` answers 503 with an error payload, `11111111` has an empty payload, `22222222` is in
Erewhon; the weather API answers 25 degrees for every city but Erewhon, for which it answers
400. -/
def demoBack : BackEnv where
  weatherAPIKey := "k"
  Do := fun url =>
    if url = viaCEPURL "01001000" then .ok { StatusCode := 200, Body := lookupSaoPaulo }
    else if url = viaCEPURL "00000000" then .ok { StatusCode := 200, Body := lookupErro }
    else if url = viaCEPURL "99999999" then .ok { StatusCode := 503, Body := lookupErro }
    else if url = viaCEPURL "11111111" then .ok { StatusCode := 200, Body := lookupEmpty }
    else if url = viaCEPURL "22222222" then
      .ok { StatusCode := 200, Body := [Chunk.raw "Erewhon"] }
    else if url = "https://api.weatherapi.com/v1/current.json?key=k&q=Erewhon" then
      .ok { StatusCode := 400, Body := [] }
    else .ok { StatusCode := 200, Body := weather25 }
  decodeViaCEP := fun b =>
    if b = lookupSaoPaulo then .ok { Localidade := "São Paulo", Erro := false }
    else if b = lookupErro then .ok { Localidade := "", Erro := true }
    else if b = lookupEmpty then .ok { Localidade := "", Erro := false }
    else if b = [Chunk.raw "Erewhon"] then .ok { Localidade := "Erewhon", Erro := false }
    else .error "unexpected end of JSON input"
  decodeWeather := demoDecodeWeather
  fusedMulAdd := false

/-- The environment `demoBack` with another weather payload for every city but Erewhon, and
with or without fused multiply-add. -/
def demoBackWith (payload : Body) (fused : Bool) : BackEnv where
  weatherAPIKey := "k"
  Do := fun url =>
    if demoBack.Do url = .ok { StatusCode := 200, Body := weather25 } then
      .ok { StatusCode := 200, Body := payload }
    else demoBack.Do url
  decodeViaCEP := demoBack.decodeViaCEP
  decodeWeather := demoDecodeWeather
  fusedMulAdd := fused

/-- A front service in front of `demoBack`, at the given configured base address. -/
def demoFrontOf (base : String) : FrontEnv where
  SERVICE_B_URL := base
  decodeCEP := demoDecodeCEP
  Do := fun url => .ok (serveWeather demoBack url).w.response

/-! ### The postal-code pattern decides `IsEightDigits` -/

theorem digits_then_end (lo hi : Char) (n : Nat) (b : Bool) (s : List Char) :
    ((iterStep (Regexp.step (.charRange lo hi)) n (b, s)).flatMap
        (Regexp.step .endText)).isEmpty = false ↔
      s.length = n ∧ ∀ c ∈ s, lo ≤ c ∧ c ≤ hi := by
  induction n generalizing b s with
  | zero =>
    cases s with
    | nil => simp [iterStep, Regexp.step]
    | cons c cs => simp [iterStep, Regexp.step]
  | succ n ih =>
    cases s with
    | nil => simp [iterStep, Regexp.step]
    | cons c cs =>
      by_cases hc : lo ≤ c ∧ c ≤ hi
      · have := ih false cs
        simp [iterStep, Regexp.step, hc] at this ⊢
        simpa using this
      · simp only [iterStep, Regexp.step, hc, if_false, List.flatMap_nil, List.isEmpty_nil,
          List.length_cons, List.mem_cons, forall_eq_or_imp]
        simp [hc]

theorem cepPattern_step (b : Bool) (s : List Char) :
    (cepPattern.step (b, s)).isEmpty = false ↔
      b = true ∧ s.length = 8 ∧ ∀ c ∈ s, '0' ≤ c ∧ c ≤ '9' := by
  cases b with
  | false => simp [cepPattern, Regexp.step]
  | true =>
    have := digits_then_end '0' '9' 8 true s
    simpa [cepPattern, Regexp.step] using this

theorem searchFrom_cepPattern_false (s : List Char) :
    searchFrom cepPattern false s = false := by
  induction s with
  | nil =>
    have := cepPattern_step false []
    simp [searchFrom] at this ⊢
    simpa using this
  | cons c cs ih =>
    have := cepPattern_step false (c :: cs)
    simp [searchFrom, ih] at this ⊢
    simpa using this

/-- The format check of both handlers accepts exactly the strings of eight ASCII digits. -/
theorem MatchString_cepPattern (s : String) :
    MatchString cepPattern s = true ↔ IsEightDigits s := by
  unfold MatchString IsEightDigits
  cases hs : s.data with
  | nil =>
    have := cepPattern_step true []
    simp [searchFrom]
    simpa using this
  | cons c cs =>
    have h1 := cepPattern_step true (c :: cs)
    have h2 := searchFrom_cepPattern_false cs
    simp [searchFrom, h2]
    simpa using h1


/-! ### The response writer after one `WriteHeader` -/

theorem writeHeader_encode (code : Nat) (text : String) :
    (({} : ResponseWriter).WriteHeader code).Encode (message text) =
      { status := some code, body := [Chunk.encoded [("message", JValue.str text)]],
        headerCalls := 1 } := rfl

/-- The response writer after `WriteHeader(200)` and the encoding of the result map: the object
is written when the three numbers are finite, and nothing is written otherwise. -/
theorem writeHeader_encode_result (city : String) (c f k : Float64) :
    (({} : ResponseWriter).WriteHeader 200).Encode (weatherResult city c f k) =
      { status := some 200,
        body :=
          if (c.isFinite && f.isFinite && k.isFinite) = true then
            [Chunk.encoded [("city", JValue.str city), ("temp_C", JValue.num c),
              ("temp_F", JValue.num f), ("temp_K", JValue.num k)]]
          else [],
        headerCalls := 1 } := by
  cases hc : c.isFinite <;> cases hf : f.isFinite <;> cases hk : k.isFinite <;>
    simp [ResponseWriter.Encode, weatherResult, Marshal, marshalValue, hc, hf, hk,
      ResponseWriter.WriteHeader, ResponseWriter.Write]

theorem writeHeader_copy (code : Nat) (b : Body) :
    (({} : ResponseWriter).WriteHeader code).Copy b =
      { status := some code, body := b, headerCalls := 1 } := by
  by_cases hb : b = []
  · simp [ResponseWriter.Copy, ResponseWriter.WriteHeader, hb]
  · simp [ResponseWriter.Copy, ResponseWriter.WriteHeader, ResponseWriter.Write, hb]

/-! ### Rejection by the format check -/

theorem MatchString_cepPattern_false {s : String} (h : ¬ IsEightDigits s) :
    MatchString cepPattern s = false := by
  cases hm : MatchString cepPattern s with
  | false => rfl
  | true => exact absurd ((MatchString_cepPattern s).1 hm) h

theorem MatchString_cepPattern_true {s : String} (h : IsEightDigits s) :
    MatchString cepPattern s = true :=
  (MatchString_cepPattern s).2 h

/-- C1. A string that is not exactly eight ASCII digits is answered with status 422 and the body
`{"message":"invalid zipcode"}` by the `/weather` handler (as query parameter `cep`), with no
outbound request at all, and by the `/cep` handler (as decoded `cep` of a POST), with no request
to the back service. -/
theorem C1_invalid_zipcode_rejected (s : String) (hs : ¬ IsEightDigits s) :
    (∀ (env : BackEnv) (r : Request), (Query r.RawQuery).Get "cep" = s →
      (weatherHandler env r).w.status = some 422 ∧
      (weatherHandler env r).w.body = [Chunk.encoded [("message", JValue.str "invalid zipcode")]] ∧
      (weatherHandler env r).log = []) ∧
    (∀ (env : FrontEnv) (r : Request), r.Method = "POST" → env.decodeCEP r.Body = .ok s →
      (cepHandler env r).w.status = some 422 ∧
      (cepHandler env r).w.body = [Chunk.encoded [("message", JValue.str "invalid zipcode")]] ∧
      ∀ url, Effect.get url ∉ (cepHandler env r).log) := by
  have hm := MatchString_cepPattern_false hs
  refine ⟨?_, ?_⟩
  · intro env r hq
    simp [weatherHandler, hq, hm, writeHeader_encode]
  · intro env r hp hd
    simp [cepHandler, hp, hd, hm, writeHeader_encode]

/-- C1, witness: `GET /weather?cep=123` and `POST /cep` with `{"cep":"123"}` give 422; so do the
empty string, seven digits, nine digits, eight digits and a newline, a letter, and non-ASCII
digits. -/
theorem C1_invalid_zipcode_rejected_witness :
    (weatherHandler demoBack (getWeather "cep=123")).w.status = some 422 ∧
    (cepHandler demoFrontOffline (postCep (cepBody "123"))).w.status = some 422 ∧
    (weatherHandler demoBack (getWeather "")).log = [] ∧
    (weatherHandler demoBack (getWeather "cep=0100100")).w.status = some 422 ∧
    (weatherHandler demoBack (getWeather "cep=010010000")).w.status = some 422 ∧
    (weatherHandler demoBack (getWeather "cep=01001000%0A")).w.status = some 422 ∧
    (weatherHandler demoBack (getWeather "cep=0100100a")).w.status = some 422 ∧
    (weatherHandler demoBack (getWeather "cep=０１００１０００")).w.status = some 422 :=
  ⟨((C1_invalid_zipcode_rejected "123" (by decide)).1 demoBack (getWeather "cep=123")
      (by decide)).1,
   ((C1_invalid_zipcode_rejected "123" (by decide)).2 demoFrontOffline (postCep (cepBody "123"))
      (by decide) (by decide)).1,
   ((C1_invalid_zipcode_rejected "" (by decide)).1 demoBack (getWeather "") (by decide)).2.2,
   ((C1_invalid_zipcode_rejected "0100100" (by decide)).1 demoBack _ (by decide)).1,
   ((C1_invalid_zipcode_rejected "010010000" (by decide)).1 demoBack _ (by decide)).1,
   ((C1_invalid_zipcode_rejected "01001000\n" (by decide)).1 demoBack _ (by decide)).1,
   ((C1_invalid_zipcode_rejected "0100100a" (by decide)).1 demoBack _ (by decide)).1,
   ((C1_invalid_zipcode_rejected "０１００１０００" (by decide)).1 demoBack _ (by decide)).1⟩


/-! ### service-a -/

/-- C5. A request to `/cep` whose method is not POST is answered with status 405 and the body
`{"message":"use POST"}`, whatever its body is: the body is not decoded and no request goes to
the back service (the effect log is empty). -/
theorem C5_non_post_method_not_allowed (env : FrontEnv) (r : Request)
    (hm : r.Method ≠ "POST") :
    (cepHandler env r).w.status = some 405 ∧
    (cepHandler env r).w.body = [Chunk.encoded [("message", JValue.str "use POST")]] ∧
    (cepHandler env r).log = [] := by
  simp [cepHandler, hm, writeHeader_encode]

/-- C5, witness: `GET /cep` with a valid body, with an invalid postal code, and with bytes that
are not JSON. -/
theorem C5_non_post_method_not_allowed_witness :
    (cepHandler demoFrontTeapot
        { Method := "GET", RawQuery := "", Body := cepBody "01001000" }).w.status = some 405 ∧
    (cepHandler demoFrontTeapot
        { Method := "PUT", RawQuery := "", Body := cepBody "123" }).log = [] ∧
    (cepHandler demoFrontTeapot
        { Method := "DELETE", RawQuery := "", Body := [Chunk.raw "<<"] }).w.status = some 405 ∧
    (cepHandler demoFrontTeapot
        { Method := "post", RawQuery := "", Body := [] }).w.status = some 405 :=
  ⟨(C5_non_post_method_not_allowed demoFrontTeapot _ (by decide)).1,
   (C5_non_post_method_not_allowed demoFrontTeapot _ (by decide)).2.2,
   (C5_non_post_method_not_allowed demoFrontTeapot _ (by decide)).1,
   (C5_non_post_method_not_allowed demoFrontTeapot _ (by decide)).1⟩

/-- C6. A POST to `/cep` whose body does not decode is answered with status 400 and the body
`{"message":"invalid json"}`, never with 422, and sends nothing to the back service; and the
checks come in the order method, decoding, format: a wrong method gives 405 whatever the body
is, a body that does not decode gives 400 whatever else holds, and 422 is given only for a POST
whose body decoded to a string that fails the format check. -/
theorem C6_invalid_json_and_check_order (env : FrontEnv) (r : Request) :
    (r.Method = "POST" → ∀ e, env.decodeCEP r.Body = .error e →
      (cepHandler env r).w.status = some 400 ∧
      (cepHandler env r).w.body = [Chunk.encoded [("message", JValue.str "invalid json")]] ∧
      (cepHandler env r).w.status ≠ some 422 ∧
      ∀ url, Effect.get url ∉ (cepHandler env r).log) ∧
    (r.Method ≠ "POST" → (cepHandler env r).w.status = some 405) ∧
    (r.Method = "POST" → ∀ cep, env.decodeCEP r.Body = .ok cep → ¬ IsEightDigits cep →
      (cepHandler env r).w.status = some 422) ∧
    ((cepHandler env r).w.status = some 422 →
      r.Method = "POST" ∧ ∃ cep, env.decodeCEP r.Body = .ok cep ∧
        (¬ IsEightDigits cep ∨ ∃ b, env.Do (serviceBURL env cep) = .ok ⟨422, b⟩)) := by
  refine ⟨?_, ?_, ?_, ?_⟩
  · intro hm e he
    simp [cepHandler, hm, he, writeHeader_encode]
  · intro hm
    simp [cepHandler, hm, writeHeader_encode]
  · intro hm cep hd hc
    simp [cepHandler, hm, hd, MatchString_cepPattern_false hc, writeHeader_encode]
  · intro h
    by_cases hm : r.Method = "POST"
    · refine ⟨hm, ?_⟩
      cases hd : env.decodeCEP r.Body with
      | error e => simp [cepHandler, hm, hd, writeHeader_encode] at h
      | ok cep =>
        refine ⟨cep, rfl, ?_⟩
        by_cases hc : IsEightDigits cep
        · right
          cases hdo : env.Do (serviceBURL env cep) with
          | error e =>
            simp [cepHandler, hm, hd, MatchString_cepPattern_true hc, callServiceB, hdo,
              writeHeader_encode] at h
          | ok resp =>
            simp [cepHandler, hm, hd, MatchString_cepPattern_true hc, callServiceB, hdo,
              writeHeader_copy] at h
            exact ⟨resp.Body, by cases resp; simp_all⟩
        · exact Or.inl hc
    · simp [cepHandler, hm, writeHeader_encode] at h

/-- C6, witness: a POST with bytes that are not JSON gives 400 and no outbound request. -/
theorem C6_invalid_json_and_check_order_witness :
    (cepHandler demoFrontTeapot (postCep [Chunk.raw "not json"])).w.status = some 400 ∧
    (cepHandler demoFrontTeapot (postCep [Chunk.raw "not json"])).w.body =
      [Chunk.encoded [("message", JValue.str "invalid json")]] ∧
    (cepHandler demoFrontTeapot (postCep (cepBody "123"))).w.status = some 422 :=
  ⟨((C6_invalid_json_and_check_order demoFrontTeapot (postCep [Chunk.raw "not json"])).1
      (by decide) "invalid character" (by decide)).1,
   ((C6_invalid_json_and_check_order demoFrontTeapot (postCep [Chunk.raw "not json"])).1
      (by decide) "invalid character" (by decide)).2.1,
   (C6_invalid_json_and_check_order demoFrontTeapot (postCep (cepBody "123"))).2.2.1
      (by decide) "123" (by decide) (by decide)⟩

/-- C3. For a POST to `/cep` whose body decodes to an eight-digit `cep`, when `callServiceB`
returns a response with status `c` and body `b`, the response of the front service has status
exactly `c` and body exactly `b`. In every other case the front service answers with a status of
its own: 405 (method), 400 (decoding), 422 (format) or 500 (`callServiceB` returned an error). -/
theorem C3_relay_verbatim (env : FrontEnv) (r : Request) :
    (∀ (cep : String) (c : Nat) (b : Body), r.Method = "POST" →
      env.decodeCEP r.Body = .ok cep → IsEightDigits cep →
      (callServiceB env cep).1 = .ok { StatusCode := c, Body := b } →
      (cepHandler env r).w.status = some c ∧ (cepHandler env r).w.body = b ∧
      (cepHandler env r).w.response = { StatusCode := c, Body := b }) ∧
    ((∃ cep resp, r.Method = "POST" ∧ env.decodeCEP r.Body = .ok cep ∧ IsEightDigits cep ∧
        (callServiceB env cep).1 = .ok resp ∧ (cepHandler env r).w.response = resp) ∨
      (r.Method ≠ "POST" ∧ (cepHandler env r).w.status = some 405) ∨
      (r.Method = "POST" ∧ (∃ e, env.decodeCEP r.Body = .error e) ∧
        (cepHandler env r).w.status = some 400) ∨
      (r.Method = "POST" ∧ (∃ cep, env.decodeCEP r.Body = .ok cep ∧ ¬ IsEightDigits cep) ∧
        (cepHandler env r).w.status = some 422) ∨
      (r.Method = "POST" ∧
        (∃ cep e, env.decodeCEP r.Body = .ok cep ∧ IsEightDigits cep ∧
          (callServiceB env cep).1 = .error e) ∧
        (cepHandler env r).w.status = some 500)) := by
  refine ⟨?_, ?_⟩
  · intro cep c b hm hd hc hcall
    simp only [callServiceB] at hcall
    simp [cepHandler, hm, hd, MatchString_cepPattern_true hc, callServiceB, hcall,
      writeHeader_copy, ResponseWriter.response]
  · by_cases hm : r.Method = "POST"
    · cases hd : env.decodeCEP r.Body with
      | error e =>
        right; right; left
        exact ⟨hm, ⟨e, rfl⟩, by simp [cepHandler, hm, hd, writeHeader_encode]⟩
      | ok cep =>
        by_cases hc : IsEightDigits cep
        · cases hdo : env.Do (serviceBURL env cep) with
          | error e =>
            right; right; right; right
            exact ⟨hm, ⟨cep, e, rfl, hc, by simp [callServiceB, hdo]⟩,
              by simp [cepHandler, hm, hd, MatchString_cepPattern_true hc, callServiceB, hdo,
                writeHeader_encode]⟩
          | ok resp =>
            left
            exact ⟨cep, resp, hm, rfl, hc, by simp [callServiceB, hdo],
              by simp [cepHandler, hm, hd, MatchString_cepPattern_true hc, callServiceB, hdo,
                writeHeader_copy, ResponseWriter.response]⟩
        · right; right; right; left
          exact ⟨hm, ⟨cep, rfl, hc⟩,
            by simp [cepHandler, hm, hd, MatchString_cepPattern_false hc, writeHeader_encode]⟩
    · right; left
      exact ⟨hm, by simp [cepHandler, hm, writeHeader_encode]⟩

/-- C3, witness: a back service answering 418 with the body `teapot` is relayed as such. -/
theorem C3_relay_verbatim_witness :
    (cepHandler demoFrontTeapot (postCep (cepBody "01001000"))).w.status = some 418 ∧
    (cepHandler demoFrontTeapot (postCep (cepBody "01001000"))).w.body = [Chunk.raw "teapot"] :=
  ⟨((C3_relay_verbatim demoFrontTeapot (postCep (cepBody "01001000"))).1 "01001000" 418
      [Chunk.raw "teapot"] (by decide) (by decide) (by decide) (by decide)).1,
   ((C3_relay_verbatim demoFrontTeapot (postCep (cepBody "01001000"))).1 "01001000" 418
      [Chunk.raw "teapot"] (by decide) (by decide) (by decide) (by decide)).2.1⟩


/-! ### service-b -/

theorem fetchCityFromCEP_log (env : BackEnv) (cep : String) :
    (fetchCityFromCEP env cep).2 = [Effect.get (viaCEPURL cep)] := by
  simp only [fetchCityFromCEP]
  repeat (first | rfl | split)

theorem fetchTemperatureCelsius_log (env : BackEnv) (city : String) :
    (fetchTemperatureCelsius env city).2 = [Effect.get (weatherURL env city)] := by
  simp only [fetchTemperatureCelsius]
  repeat (first | rfl | split)

theorem fetchCityFromCEP_ok_iff (env : BackEnv) (cep city : String) :
    (fetchCityFromCEP env cep).1 = .ok city ↔
      ∃ lb, env.Do (viaCEPURL cep) = .ok { StatusCode := 200, Body := lb } ∧
        env.decodeViaCEP lb = .ok { Localidade := city, Erro := false } := by
  cases hdo : env.Do (viaCEPURL cep) with
  | error e => simp [fetchCityFromCEP, hdo]
  | ok resp =>
    obtain ⟨st, lb⟩ := resp
    by_cases hs : st = 200
    · subst hs
      cases hd : env.decodeViaCEP lb with
      | error e => simp [fetchCityFromCEP, hdo, hd]
      | ok data =>
        obtain ⟨loc, erro⟩ := data
        cases erro <;> simp [fetchCityFromCEP, hdo, hd]
    · simp [fetchCityFromCEP, hdo, hs]

/-- The `/weather` handler on a well-formed postal code, in terms of the two fetches. -/
theorem weatherHandler_valid (env : BackEnv) (r : Request) (cep : String)
    (hq : (Query r.RawQuery).Get "cep" = cep) (hc : IsEightDigits cep) :
    weatherHandler env r =
      match (fetchCityFromCEP env cep).1 with
      | .error err =>
        if err.isCEPNotFound then
          ⟨⟨some 404, [Chunk.encoded [("message", JValue.str "can not find zipcode")]], 1⟩,
            [Effect.get (viaCEPURL cep)]⟩
        else
          ⟨⟨some 500, [Chunk.encoded [("message", JValue.str err.Error)]], 1⟩,
            [Effect.get (viaCEPURL cep)]⟩
      | .ok city =>
        match (fetchTemperatureCelsius env city).1 with
        | .error err =>
          ⟨⟨some 500, [Chunk.encoded [("message", JValue.str err.Error)]], 1⟩,
            [Effect.get (viaCEPURL cep), Effect.get (weatherURL env city)]⟩
        | .ok tempC =>
          ⟨⟨some 200,
              if (tempC.isFinite && (celsiusToFahrenheit env.fusedMulAdd tempC).isFinite &&
                  (celsiusToKelvin tempC).isFinite) = true then
                [Chunk.encoded [("city", JValue.str city), ("temp_C", JValue.num tempC),
                  ("temp_F", JValue.num (celsiusToFahrenheit env.fusedMulAdd tempC)),
                  ("temp_K", JValue.num (celsiusToKelvin tempC))]]
              else [],
              1⟩,
            [Effect.get (viaCEPURL cep), Effect.get (weatherURL env city)]⟩ := by
  have hl := fetchCityFromCEP_log env cep
  simp only [weatherHandler, hq, MatchString_cepPattern_true hc, Bool.not_true,
    Bool.false_eq_true, if_false, writeHeader_encode, writeHeader_encode_result]
  rcases hf : fetchCityFromCEP env cep with ⟨res, log⟩
  rw [hf] at hl
  simp only at hl
  subst hl
  cases res with
  | error err => cases hn : err.isCEPNotFound <;> simp [hn]
  | ok city =>
    have hl2 := fetchTemperatureCelsius_log env city
    rcases hg : fetchTemperatureCelsius env city with ⟨res2, log2⟩
    rw [hg] at hl2
    simp only at hl2
    subst hl2
    cases res2 <;> simp [hg]

/-- C2. For an eight-digit postal code whose lookup answers 200 with a payload whose `erro` flag
is true, whatever its `localidade`: `fetchCityFromCEP` returns `ErrCEPNotFound`; the `/weather`
handler answers 404 with `{"message":"can not find zipcode"}` and its only outbound request is
the lookup; and the front service, receiving that response from the back service, answers its
caller with 404 and the same body. -/
theorem C2_not_found_is_404 (env : BackEnv) (cep : String) (hcep : IsEightDigits cep)
    (lb : Body) (data : ViaCEPData)
    (hDo : env.Do (viaCEPURL cep) = .ok { StatusCode := 200, Body := lb })
    (hdec : env.decodeViaCEP lb = .ok data) (herro : data.Erro = true) :
    (fetchCityFromCEP env cep).1 = .error GoError.ErrCEPNotFound ∧
    (∀ r : Request, (Query r.RawQuery).Get "cep" = cep →
      (weatherHandler env r).w.status = some 404 ∧
      (weatherHandler env r).w.body =
        [Chunk.encoded [("message", JValue.str "can not find zipcode")]] ∧
      (weatherHandler env r).log = [Effect.get (viaCEPURL cep)] ∧
      ∀ (fenv : FrontEnv) (q : Request), q.Method = "POST" → fenv.decodeCEP q.Body = .ok cep →
        fenv.Do (serviceBURL fenv cep) = .ok (weatherHandler env r).w.response →
        (cepHandler fenv q).w.status = some 404 ∧
        (cepHandler fenv q).w.body = (weatherHandler env r).w.body ∧
        (cepHandler fenv q).w.body =
          [Chunk.encoded [("message", JValue.str "can not find zipcode")]]) := by
  have hf : (fetchCityFromCEP env cep).1 = .error GoError.ErrCEPNotFound := by
    simp [fetchCityFromCEP, hDo, hdec, herro]
  refine ⟨hf, ?_⟩
  intro r hq
  have hw := weatherHandler_valid env r cep hq hcep
  rw [hf] at hw
  simp only [GoError.isCEPNotFound, if_true] at hw
  refine ⟨by rw [hw], by rw [hw], by rw [hw], ?_⟩
  intro fenv q hm hd hdo
  rw [hw] at hdo ⊢
  simp [cepHandler, hm, hd, MatchString_cepPattern_true hcep, callServiceB, hdo,
    writeHeader_copy, ResponseWriter.response]

/-- C2, witness: `cep` `00000000` with the lookup payload `{"erro":true}`, through both
services. -/
theorem C2_not_found_is_404_witness :
    (weatherHandler demoBack (getWeather "cep=00000000")).w.status = some 404 ∧
    (cepHandler (demoFrontOf "") (postCep (cepBody "00000000"))).w.status = some 404 ∧
    (cepHandler (demoFrontOf "") (postCep (cepBody "00000000"))).w.body =
      [Chunk.encoded [("message", JValue.str "can not find zipcode")]] :=
  ⟨((C2_not_found_is_404 demoBack "00000000" (by decide) lookupErro
      { Localidade := "", Erro := true } (by decide) (by decide) rfl).2
      (getWeather "cep=00000000") (by decide)).1,
   (((C2_not_found_is_404 demoBack "00000000" (by decide) lookupErro
      { Localidade := "", Erro := true } (by decide) (by decide) rfl).2
      (getWeather "cep=00000000") (by decide)).2.2.2 (demoFrontOf "")
      (postCep (cepBody "00000000")) (by decide) (by decide) (by decide)).1,
   (((C2_not_found_is_404 demoBack "00000000" (by decide) lookupErro
      { Localidade := "", Erro := true } (by decide) (by decide) rfl).2
      (getWeather "cep=00000000") (by decide)).2.2.2 (demoFrontOf "")
      (postCep (cepBody "00000000")) (by decide) (by decide) (by decide)).2.2⟩


/-! ### The rounding error of `float64` arithmetic -/

theorem ilog2Aux_spec (fuel n : Nat) (hf : n ≤ fuel) (hn : 0 < n) :
    2 ^ ilog2Aux fuel n ≤ n ∧ n < 2 ^ (ilog2Aux fuel n + 1) := by
  induction fuel generalizing n with
  | zero => omega
  | succ fuel ih =>
    unfold ilog2Aux
    by_cases h2 : n < 2
    · simp [h2]; omega
    · simp only [h2, if_false]
      have := ih (n / 2) (by omega) (by omega)
      rw [pow_succ, pow_succ]
      constructor <;> omega

theorem ilog2_spec (n : Nat) (hn : 0 < n) : 2 ^ ilog2 n ≤ n ∧ n < 2 ^ (ilog2 n + 1) :=
  ilog2Aux_spec n n le_rfl hn

theorem ilog2_two_pow (j : Nat) : ilog2 (2 ^ j) = j := by
  have h := ilog2_spec (2 ^ j) (by positivity)
  have h1 : ilog2 (2 ^ j) ≤ j := (Nat.pow_le_pow_iff_right (by norm_num)).1 h.1
  have h2 : j < ilog2 (2 ^ j) + 1 := (Nat.pow_lt_pow_iff_right (by norm_num)).1 h.2
  omega

theorem two_zpow_split (q : Int) : (2 : ℚ) ^ q = 2 ^ q.toNat / 2 ^ (-q).toNat := by
  rcases le_total 0 q with h | h
  · obtain ⟨k, rfl⟩ := Int.eq_ofNat_of_zero_le h
    have h1 : (-(k : Int)).toNat = 0 := by omega
    rw [h1, Int.toNat_ofNat, zpow_natCast]
    simp
  · obtain ⟨k, hk⟩ := Int.eq_ofNat_of_zero_le (neg_nonneg.2 h)
    have hq : q = -(k : Int) := by omega
    subst hq
    have h1 : (-(k : Int)).toNat = 0 := by omega
    rw [h1, neg_neg, Int.toNat_ofNat, zpow_neg, zpow_natCast]
    simp

theorem roundHalfEven_error (n d : Nat) (hd : 0 < d) :
    |(roundHalfEven n d : ℚ) - (n : ℚ) / d| ≤ 1 / 2 := by
  have hdq : (0 : ℚ) < d := by exact_mod_cast hd
  have hdiv : (n : ℚ) = d * ((n / d : ℕ) : ℚ) + ((n % d : ℕ) : ℚ) := by
    exact_mod_cast (Nat.div_add_mod n d).symm
  have key : (n : ℚ) / d = ((n / d : ℕ) : ℚ) + ((n % d : ℕ) : ℚ) / d := by
    field_simp
    linarith
  unfold roundHalfEven
  split_ifs with h1 h2 h3
  · have h5 : 2 * ((n % d : ℕ) : ℚ) < d := by exact_mod_cast h1
    have : ((n % d : ℕ) : ℚ) / d < 1 / 2 := by
      rw [div_lt_iff₀ hdq]; linarith
    have hr0 : (0 : ℚ) ≤ ((n % d : ℕ) : ℚ) / d := by positivity
    rw [key, abs_le]; constructor <;> linarith
  · have h5 : (d : ℚ) < 2 * ((n % d : ℕ) : ℚ) := by exact_mod_cast h2
    have hr : ((n % d : ℕ) : ℚ) < d := by exact_mod_cast Nat.mod_lt n hd
    have : (1 : ℚ) / 2 < ((n % d : ℕ) : ℚ) / d := by
      rw [lt_div_iff₀ hdq]; linarith
    have hrq : ((n % d : ℕ) : ℚ) / d < 1 := by
      rw [div_lt_one hdq]; exact hr
    rw [key, abs_le]; push_cast; constructor <;> linarith
  · have h4 : 2 * (n % d) = d := by omega
    have h5 : 2 * ((n % d : ℕ) : ℚ) = d := by exact_mod_cast h4
    have : ((n % d : ℕ) : ℚ) / d = 1 / 2 := by
      rw [div_eq_iff hdq.ne']; linarith
    rw [key, abs_le]; constructor <;> linarith
  · have h4 : 2 * (n % d) = d := by omega
    have h5 : 2 * ((n % d : ℕ) : ℚ) = d := by exact_mod_cast h4
    have : ((n % d : ℕ) : ℚ) / d = 1 / 2 := by
      rw [div_eq_iff hdq.ne']; linarith
    rw [key, abs_le]; push_cast; constructor <;> linarith

/-- The lower bound of `floorLog2`. -/
theorem floorLog2_le (n d : Nat) (hn : 0 < n) (hd : 0 < d) :
    (2 : ℚ) ^ floorLog2 n d ≤ (n : ℚ) / d := by
  have hdq : (0 : ℚ) < d := by exact_mod_cast hd
  have ha := ilog2_spec n hn
  have hb := ilog2_spec d hd
  have ha1 : ((2 : ℚ) ^ ilog2 n) ≤ n := by exact_mod_cast ha.1
  have hb2 : (d : ℚ) < 2 ^ (ilog2 d + 1) := by exact_mod_cast hb.2
  unfold floorLog2
  split_ifs with h
  · rw [Nat.shiftLeft_eq, Nat.shiftLeft_eq] at h
    have hq : (d : ℚ) * 2 ^ (ilog2 n - ilog2 d) ≤ n * 2 ^ (ilog2 d - ilog2 n) := by
      exact_mod_cast h
    rw [le_div_iff₀ hdq]
    rcases le_total (ilog2 d) (ilog2 n) with hle | hle
    · have h0 : ilog2 d - ilog2 n = 0 := by omega
      rw [h0, pow_zero, mul_one] at hq
      have : ((ilog2 n : Int) - (ilog2 d : Int)) = ((ilog2 n - ilog2 d : ℕ) : Int) := by omega
      rw [this, zpow_natCast]
      linarith
    · have h0 : ilog2 n - ilog2 d = 0 := by omega
      rw [h0, pow_zero, mul_one] at hq
      have : ((ilog2 n : Int) - (ilog2 d : Int)) = -((ilog2 d - ilog2 n : ℕ) : Int) := by omega
      rw [this, zpow_neg, zpow_natCast]
      have hp : (0 : ℚ) < 2 ^ (ilog2 d - ilog2 n) := by positivity
      rw [inv_mul_le_iff₀ hp]
      linarith
  · rw [le_div_iff₀ hdq]
    have e : ((ilog2 n : Int) - (ilog2 d : Int) - 1) = (ilog2 n : Int) - ((ilog2 d + 1 : ℕ) : Int) := by
      push_cast; ring
    rw [e, zpow_sub₀ (by norm_num), zpow_natCast, zpow_natCast]
    have hp : (0 : ℚ) < 2 ^ (ilog2 d + 1) := by positivity
    rw [div_mul_eq_mul_div, div_le_iff₀ hp]
    have hn0 : (0 : ℚ) ≤ 2 ^ ilog2 n := by positivity
    nlinarith

/-- Cancelling the common power of two leaves the value of a dyadic fraction unchanged. -/
theorem reduce_value (M p : Nat) :
    ((M / Nat.gcd M (2 ^ p) : ℕ) : ℚ) / 2 ^ ilog2 (2 ^ p / Nat.gcd M (2 ^ p)) =
      (M : ℚ) / 2 ^ p := by
  obtain ⟨j, hj, hg⟩ := (Nat.dvd_prime_pow Nat.prime_two).1 (Nat.gcd_dvd_right M (2 ^ p))
  have hM : 2 ^ j ∣ M := hg ▸ Nat.gcd_dvd_left M (2 ^ p)
  rw [hg, Nat.pow_div hj (by norm_num), ilog2_two_pow,
    Nat.cast_div hM (by positivity)]
  have hp : (2 : ℚ) ^ p = 2 ^ j * 2 ^ (p - j) := by
    rw [← pow_add]; congr 1; omega
  rw [hp]
  push_cast
  field_simp

/-- The rounding error of `Float64.round`: half a unit in the last place, which is at most the
fraction `2 ^ -53` of the exact value or, below the normal range, `2 ^ -1075`. -/
theorem round_error (neg : Bool) (n d : Nat) (hd : 0 < d) (s : Bool) (m k : Nat)
    (h : Float64.round neg n d = .finite s m k) :
    s = neg ∧ |(m : ℚ) / 2 ^ k - (n : ℚ) / d| ≤ (n : ℚ) / d / 2 ^ 53 + 1 / 2 ^ 1075 := by
  have hdq : (0 : ℚ) < d := by exact_mod_cast hd
  unfold Float64.round at h
  by_cases h0 : n = 0
  · rw [if_pos h0] at h
    injection h with h1 h2 h3
    subst h0
    refine ⟨h1.symm, ?_⟩
    rw [← h2]
    simp
  · rw [if_neg h0] at h
    simp only at h
    split_ifs at h with hov
    injection h with h1 h2 h3
    refine ⟨h1.symm, ?_⟩
    have hn : 0 < n := Nat.pos_of_ne_zero h0
    set q : Int := max (floorLog2 n d - 52) (-1074) with hq
    set mr := roundHalfEven (n <<< (-q).toNat) (d <<< q.toNat) with hmr
    have hval : (m : ℚ) / 2 ^ k = (mr : ℚ) * 2 ^ q := by
      rw [← h2, ← h3]
      simp only [Nat.shiftLeft_eq, one_mul]
      rw [reduce_value, two_zpow_split q]
      push_cast
      ring
    have hD : 0 < d <<< q.toNat := by
      rw [Nat.shiftLeft_eq]; positivity
    have herr := roundHalfEven_error (n <<< (-q).toNat) (d <<< q.toNat) hD
    rw [← hmr] at herr
    have hND : ((n <<< (-q).toNat : ℕ) : ℚ) / ((d <<< q.toNat : ℕ) : ℚ) = (n : ℚ) / d / 2 ^ q := by
      simp only [Nat.shiftLeft_eq]
      rw [two_zpow_split q]
      push_cast
      field_simp
    rw [hND] at herr
    have hq0 : (0 : ℚ) < 2 ^ q := by positivity
    have hbound : |(mr : ℚ) * 2 ^ q - (n : ℚ) / d| ≤ 2 ^ q / 2 := by
      have e : (mr : ℚ) * 2 ^ q - (n : ℚ) / d = ((mr : ℚ) - (n : ℚ) / d / 2 ^ q) * 2 ^ q := by
        field_simp
        ring
      rw [e, abs_mul, abs_of_pos hq0]
      calc |(mr : ℚ) - (n : ℚ) / d / 2 ^ q| * 2 ^ q ≤ 1 / 2 * 2 ^ q :=
            mul_le_mul_of_nonneg_right herr hq0.le
        _ = 2 ^ q / 2 := by ring
    have hhalf : (2 : ℚ) ^ q / 2 ≤ (n : ℚ) / d / 2 ^ 53 + 1 / 2 ^ 1075 := by
      have hL := floorLog2_le n d hn hd
      have hnd : (0 : ℚ) ≤ (n : ℚ) / d := by positivity
      rcases le_total (floorLog2 n d - 52) (-1074) with hle | hle
      · have : q = -1074 := by rw [hq]; exact max_eq_right hle
        rw [this]
        have e : (2 : ℚ) ^ (-1074 : Int) / 2 = 1 / 2 ^ 1075 := by
          rw [zpow_neg]; norm_num
        rw [e]
        have : (0 : ℚ) ≤ (n : ℚ) / d / 2 ^ 53 := by positivity
        linarith
      · have : q = floorLog2 n d - 52 := by rw [hq]; exact max_eq_left hle
        rw [this, zpow_sub₀ (by norm_num)]
        have e : (2 : ℚ) ^ (52 : Int) = 2 ^ 52 := by norm_num
        rw [e]
        have h1 : (2 : ℚ) ^ floorLog2 n d / 2 ^ 52 / 2 = 2 ^ floorLog2 n d / 2 ^ 53 := by
          rw [div_div]; norm_num
        rw [h1]
        have h2 : (2 : ℚ) ^ floorLog2 n d / 2 ^ 53 ≤ (n : ℚ) / d / 2 ^ 53 :=
          div_le_div_of_nonneg_right hL (by positivity)
        have : (0 : ℚ) ≤ 1 / 2 ^ 1075 := by positivity
        linarith
    rw [hval]
    exact hbound.trans hhalf

/-- The value of a rounded fraction, when it is finite, against the exact value. -/
theorem toRat_round (neg : Bool) (n d : Nat) (hd : 0 < d)
    (hfin : (Float64.round neg n d).isFinite = true) :
    |(Float64.round neg n d).toRat - (if neg then -1 else 1) * ((n : ℚ) / d)| ≤
      (n : ℚ) / d / 2 ^ 53 + 1 / 2 ^ 1075 := by
  cases h : Float64.round neg n d with
  | finite s m k =>
    obtain ⟨hs, hb⟩ := round_error neg n d hd s m k h
    subst hs
    simp only [Float64.toRat]
    have e : (if s = true then (-1 : ℚ) else 1) * (m : ℚ) / 2 ^ k -
        (if s = true then (-1 : ℚ) else 1) * ((n : ℚ) / d) =
        (if s = true then (-1 : ℚ) else 1) * ((m : ℚ) / 2 ^ k - (n : ℚ) / d) := by ring
    rw [e, abs_mul]
    cases s <;> simpa using hb
  | inf s => rw [h] at hfin; simp [Float64.isFinite] at hfin
  | nan => rw [h] at hfin; simp [Float64.isFinite] at hfin

theorem roundSum_def (s : Bool) (a j : Nat) (t : Bool) (b k : Nat) (x : Int)
    (hx : x = (if s then -1 else 1) * ((a <<< (max j k - j) : Nat) : Int) +
      (if t then -1 else 1) * ((b <<< (max j k - k) : Nat) : Int)) :
    Float64.roundSum s a j t b k =
      if x = 0 then .finite (s && t) 0 0
      else Float64.round (decide (x < 0)) x.natAbs (1 <<< max j k) := by
  subst hx
  rfl

/-- The exact sum of two finite values, as a fraction over the common denominator. -/
theorem roundSum_exact (s : Bool) (a j : Nat) (t : Bool) (b k : Nat) (x : Int)
    (hx : x = (if s then -1 else 1) * ((a <<< (max j k - j) : Nat) : Int) +
      (if t then -1 else 1) * ((b <<< (max j k - k) : Nat) : Int)) :
    (x : ℚ) / 2 ^ max j k = (Float64.finite s a j).toRat + (Float64.finite t b k).toRat := by
  have hj : (2 : ℚ) ^ max j k = 2 ^ j * 2 ^ (max j k - j) := by
    rw [← pow_add]; congr 1; omega
  have hk : (2 : ℚ) ^ max j k = 2 ^ k * 2 ^ (max j k - k) := by
    rw [← pow_add]; congr 1; omega
  have e1 : ((a : ℚ) * 2 ^ (max j k - j)) / 2 ^ max j k = (a : ℚ) / 2 ^ j := by
    rw [hj]; field_simp; ring
  have e2 : ((b : ℚ) * 2 ^ (max j k - k)) / 2 ^ max j k = (b : ℚ) / 2 ^ k := by
    rw [hk]; field_simp; ring
  have hs : ∀ (u v : ℚ), (u * ((a : ℚ) * 2 ^ (max j k - j)) + v * ((b : ℚ) * 2 ^ (max j k - k))) /
      2 ^ max j k = u * (a : ℚ) / 2 ^ j + v * (b : ℚ) / 2 ^ k := by
    intro u v
    have e : (u * ((a : ℚ) * 2 ^ (max j k - j)) + v * ((b : ℚ) * 2 ^ (max j k - k))) /
        2 ^ max j k = u * (((a : ℚ) * 2 ^ (max j k - j)) / 2 ^ max j k) +
          v * (((b : ℚ) * 2 ^ (max j k - k)) / 2 ^ max j k) := by ring
    rw [e, e1, e2]
    ring
  rw [hx]
  simp only [Float64.toRat, Nat.shiftLeft_eq]
  have := hs (if s then -1 else 1) (if t then -1 else 1)
  rw [← this]
  congr 1
  cases s <;> cases t <;> simp

/-- The value of a rounded sum, when it is finite, against the exact sum. -/
theorem toRat_roundSum (s : Bool) (a j : Nat) (t : Bool) (b k : Nat)
    (hfin : (Float64.roundSum s a j t b k).isFinite = true) :
    |(Float64.roundSum s a j t b k).toRat -
        ((Float64.finite s a j).toRat + (Float64.finite t b k).toRat)| ≤
      |(Float64.finite s a j).toRat + (Float64.finite t b k).toRat| / 2 ^ 53 + 1 / 2 ^ 1075 := by
  obtain ⟨x, hxdef⟩ : ∃ x : Int, x = (if s then -1 else 1) * ((a <<< (max j k - j) : Nat) : Int) +
      (if t then -1 else 1) * ((b <<< (max j k - k) : Nat) : Int) := ⟨_, rfl⟩
  have hval := roundSum_exact s a j t b k x hxdef
  rw [roundSum_def s a j t b k x hxdef] at hfin ⊢
  by_cases h0 : x = 0
  · rw [if_pos h0]
    rw [h0] at hval
    simp only [Int.cast_zero, zero_div] at hval
    rw [← hval]
    simp [Float64.toRat]
  · rw [if_neg h0] at hfin ⊢
    have hpos : 0 < 1 <<< max j k := by rw [Nat.shiftLeft_eq]; positivity
    have hb := toRat_round _ _ _ hpos hfin
    have hd : ((1 <<< max j k : ℕ) : ℚ) = 2 ^ max j k := by
      rw [Nat.shiftLeft_eq]; push_cast; ring
    have habs : ((x.natAbs : ℕ) : ℚ) = |(x : ℚ)| := by
      rw [Nat.cast_natAbs, Int.cast_abs]
    rw [hd, habs] at hb
    have hp : (0 : ℚ) < 2 ^ max j k := by positivity
    have hsgn : (if decide (x < 0) = true then (-1 : ℚ) else 1) * (|(x : ℚ)| / 2 ^ max j k) =
        (x : ℚ) / 2 ^ max j k := by
      by_cases hneg : x < 0
      · have : (x : ℚ) < 0 := by exact_mod_cast hneg
        simp [hneg, abs_of_neg this]
        ring
      · have : (0 : ℚ) ≤ x := by exact_mod_cast (not_lt.1 hneg)
        simp [hneg, abs_of_nonneg this]
    have habs2 : |(x : ℚ)| / 2 ^ max j k = |(x : ℚ) / 2 ^ max j k| := by
      rw [abs_div, abs_of_pos hp]
    rw [hsgn, habs2, hval] at hb
    exact hb

/-- Error propagation through `c * 1.8 + 32`: with `p` within rounding distance of the product
of `x` and the `float64` constant `1.8`, and `f` within rounding distance of `p + 32`, the value
`f` is within the fraction `2 ^ -51` of `|x| * 9 / 5 + 32` of the exact `x * 9 / 5 + 32`. -/
theorem fahrenheit_error (x p f η : ℚ) (hη : 0 ≤ η)
    (h1 : |p - x * (8106479329266893 / 2 ^ 52)| ≤ |x * (8106479329266893 / 2 ^ 52)| / 2 ^ 53 + η)
    (h2 : |f - (p + 32)| ≤ |p + 32| / 2 ^ 53 + η) :
    |f - (x * 9 / 5 + 32)| ≤ (|x| * 9 / 5 + 32) / 2 ^ 51 + 4 * η := by
  have hxa : |x * (8106479329266893 / 2 ^ 52)| = |x| * (8106479329266893 / 2 ^ 52) := by
    rw [abs_mul, abs_of_pos (by norm_num : (0 : ℚ) < 8106479329266893 / 2 ^ 52)]
  have hy : 0 ≤ |x| := abs_nonneg x
  have t1 : |p| ≤ |p - x * (8106479329266893 / 2 ^ 52)| + |x * (8106479329266893 / 2 ^ 52)| := by
    have := abs_add (p - x * (8106479329266893 / 2 ^ 52)) (x * (8106479329266893 / 2 ^ 52))
    simpa using this
  have t2 : |p + 32| ≤ |p| + 32 := by
    have := abs_add p 32
    simpa using this
  have t4 : |x * (8106479329266893 / 2 ^ 52) - x * 9 / 5| =
      |x| * (8106479329266893 / 2 ^ 52 - 9 / 5) := by
    have e : x * (8106479329266893 / 2 ^ 52) - x * 9 / 5 =
        x * (8106479329266893 / 2 ^ 52 - 9 / 5) := by ring
    rw [e, abs_mul, abs_of_pos (by norm_num : (0 : ℚ) < 8106479329266893 / 2 ^ 52 - 9 / 5)]
  have t3 : |f - (x * 9 / 5 + 32)| ≤ |f - (p + 32)| +
      (|p - x * (8106479329266893 / 2 ^ 52)| + |x * (8106479329266893 / 2 ^ 52) - x * 9 / 5|) := by
    have e : f - (x * 9 / 5 + 32) = (f - (p + 32)) +
        ((p - x * (8106479329266893 / 2 ^ 52)) + (x * (8106479329266893 / 2 ^ 52) - x * 9 / 5)) := by
      ring
    rw [e]
    exact (abs_add _ _).trans (add_le_add_left (abs_add _ _) _)
  rw [hxa] at h1 t1
  rw [t4] at t3
  norm_num at h1 h2 t1 t3 ⊢
  linarith

theorem const_18_10 : Float64.const 18 10 = Float64.finite false 8106479329266893 52 := by
  decide

theorem const_32_1 : Float64.const 32 1 = Float64.finite false 32 0 := by decide

theorem const_273_1 : Float64.const 273 1 = Float64.finite false 273 0 := by decide

/-- The value of `celsiusToKelvin`, when it is finite, is within the fraction `2 ^ -53` of the
exact `c + 273` (or within `2 ^ -1075`). -/
theorem celsiusToKelvin_error (c : Float64) (hc : c.isFinite = true)
    (hfin : (celsiusToKelvin c).isFinite = true) :
    |(celsiusToKelvin c).toRat - (c.toRat + 273)| ≤ |c.toRat + 273| / 2 ^ 53 + 1 / 2 ^ 1075 := by
  cases c with
  | finite s a j =>
    have e : celsiusToKelvin (Float64.finite s a j) = Float64.roundSum s a j false 273 0 := by
      simp only [celsiusToKelvin, const_273_1, Float64.add]
    rw [e] at hfin ⊢
    have h := toRat_roundSum s a j false 273 0 hfin
    have e273 : (Float64.finite false 273 0).toRat = 273 := by simp [Float64.toRat]
    rw [e273] at h
    exact h
  | inf s => simp [Float64.isFinite] at hc
  | nan => simp [Float64.isFinite] at hc

/-- The value of `celsiusToFahrenheit`, when it is finite, is within the fraction `2 ^ -51` of
`|c| * 9 / 5 + 32` (and `2 ^ -1073`) of the exact `c * 9 / 5 + 32`, with and without fused
multiply-add. -/
theorem celsiusToFahrenheit_error (fused : Bool) (c : Float64) (hc : c.isFinite = true)
    (hfin : (celsiusToFahrenheit fused c).isFinite = true) :
    |(celsiusToFahrenheit fused c).toRat - (c.toRat * 9 / 5 + 32)| ≤
      (|c.toRat| * 9 / 5 + 32) / 2 ^ 51 + 1 / 2 ^ 1073 := by
  have e4 : (4 : ℚ) * (1 / 2 ^ 1075) = 1 / 2 ^ 1073 := by norm_num
  have e32 : (Float64.finite false 32 0).toRat = 32 := by simp [Float64.toRat]
  cases c with
  | finite s a j =>
    have hprod : (Float64.finite s (a * 8106479329266893) (j + 52)).toRat =
        (Float64.finite s a j).toRat * (8106479329266893 / 2 ^ 52) := by
      simp only [Float64.toRat]
      push_cast
      rw [pow_add]
      field_simp
    rw [← e4]
    cases fused with
    | true =>
      have e : celsiusToFahrenheit true (Float64.finite s a j) =
          Float64.roundSum s (a * 8106479329266893) (j + 52) false 32 0 := by
        simp only [celsiusToFahrenheit, const_18_10, const_32_1, Float64.fma, if_true]
        cases s <;> rfl
      rw [e] at hfin ⊢
      have h := toRat_roundSum s (a * 8106479329266893) (j + 52) false 32 0 hfin
      rw [e32, hprod] at h
      refine fahrenheit_error _ ((Float64.finite s a j).toRat * (8106479329266893 / 2 ^ 52)) _ _
        (by positivity) ?_ h
      rw [sub_self, abs_zero]
      positivity
    | false =>
      have e : celsiusToFahrenheit false (Float64.finite s a j) =
          (Float64.round s (a * 8106479329266893) (1 <<< (j + 52))).add
            (Float64.finite false 32 0) := by
        simp only [celsiusToFahrenheit, const_18_10, const_32_1, Float64.mul,
          Bool.false_eq_true, if_false]
        cases s <;> rfl
      rw [e] at hfin ⊢
      cases hp : Float64.round s (a * 8106479329266893) (1 <<< (j + 52)) with
      | finite s2 pm pk =>
        rw [hp] at hfin
        have hpos : 0 < 1 <<< (j + 52) := by rw [Nat.shiftLeft_eq]; positivity
        have h1 := toRat_round s (a * 8106479329266893) (1 <<< (j + 52)) hpos
          (by rw [hp]; rfl)
        rw [hp] at h1
        have h2 := toRat_roundSum s2 pm pk false 32 0 hfin
        rw [e32] at h2
        have hmag : (((a * 8106479329266893 : ℕ) : ℚ)) / ((1 <<< (j + 52) : ℕ) : ℚ) =
            |(Float64.finite s a j).toRat * (8106479329266893 / 2 ^ 52)| := by
          rw [← hprod]
          simp only [Float64.toRat, Nat.shiftLeft_eq, one_mul]
          push_cast
          rw [abs_div, abs_mul, abs_of_pos (by positivity : (0 : ℚ) < 2 ^ (j + 52))]
          cases s <;> simp [abs_of_nonneg]
        have hsgn : (if s = true then (-1 : ℚ) else 1) *
            ((((a * 8106479329266893 : ℕ) : ℚ)) / ((1 <<< (j + 52) : ℕ) : ℚ)) =
            (Float64.finite s a j).toRat * (8106479329266893 / 2 ^ 52) := by
          rw [← hprod]
          simp only [Float64.toRat, Nat.shiftLeft_eq, one_mul]
          push_cast
          ring
        rw [hsgn, hmag] at h1
        exact fahrenheit_error _ _ _ _ (by positivity) h1 h2
      | inf s2 =>
        rw [hp] at hfin
        simp [Float64.add, Float64.isFinite] at hfin
      | nan =>
        rw [hp] at hfin
        simp [Float64.add, Float64.isFinite] at hfin
  | inf s => simp [Float64.isFinite] at hc
  | nan => simp [Float64.isFinite] at hc


/-! ### The result of a successful query -/

/-- C4, as stated, fails in two ways. For the payload `temp_c: 1e308` the product `c*1.8`
exceeds the largest `float64`, `temp_F` is `+Inf` (with and without fused multiply-add), the
encoder rejects the map after `WriteHeader(200)` has run, and the response is 200 with an empty
body: no result object. For the payload `temp_c: 3.6` the value `temp_F` that is written is
`38.480000000000004` (`2707789275956511 / 2 ^ 46`), or `38.48` rounded down
(`5415578551913021 / 2 ^ 47`) with fused multiply-add; neither is `c * 1.8 + 32` in exact
rational arithmetic. -/
theorem C4_overflow_counterexample :
    IsEightDigits "01001000" ∧
    (Query (getWeather "cep=01001000").RawQuery).Get "cep" = "01001000" ∧
    (demoBackWith weather1e308 false).Do (viaCEPURL "01001000") =
      .ok { StatusCode := 200, Body := lookupSaoPaulo } ∧
    (demoBackWith weather1e308 false).decodeViaCEP lookupSaoPaulo =
      .ok { Localidade := "São Paulo", Erro := false } ∧
    (demoBackWith weather1e308 false).Do (weatherURL (demoBackWith weather1e308 false) "São Paulo") =
      .ok { StatusCode := 200, Body := weather1e308 } ∧
    (demoBackWith weather1e308 false).decodeWeather weather1e308 =
      .ok (Float64.round false (10 ^ 308) 1) ∧
    (Float64.round false (10 ^ 308) 1).isFinite = true ∧
    celsiusToFahrenheit false (Float64.round false (10 ^ 308) 1) = Float64.inf false ∧
    celsiusToFahrenheit true (Float64.round false (10 ^ 308) 1) = Float64.inf false ∧
    (weatherHandler (demoBackWith weather1e308 false) (getWeather "cep=01001000")).w.status =
      some 200 ∧
    (weatherHandler (demoBackWith weather1e308 false) (getWeather "cep=01001000")).w.body = [] ∧
    (weatherHandler (demoBackWith weather1e308 true) (getWeather "cep=01001000")).w.body = [] ∧
    celsiusToFahrenheit false (Float64.round false 36 10) =
      Float64.finite false 2707789275956511 46 ∧
    celsiusToFahrenheit true (Float64.round false 36 10) =
      Float64.finite false 5415578551913021 47 ∧
    (celsiusToFahrenheit false (Float64.round false 36 10)).toRat ≠
      (Float64.round false 36 10).toRat * 1.8 + 32 ∧
    (celsiusToFahrenheit true (Float64.round false 36 10)).toRat ≠
      (Float64.round false 36 10).toRat * 1.8 + 32 := by
  have h1 : celsiusToFahrenheit false (Float64.round false 36 10) =
      Float64.finite false 2707789275956511 46 := by decide
  have h2 : celsiusToFahrenheit true (Float64.round false 36 10) =
      Float64.finite false 5415578551913021 47 := by decide
  have h3 : Float64.round false 36 10 = Float64.finite false 8106479329266893 51 := by decide
  refine ⟨by decide, by decide, by decide, by decide, by decide, by decide, by decide, by decide,
    by decide, by decide, by decide, by decide, h1, h2, ?_, ?_⟩
  · rw [h1, h3]
    norm_num [Float64.toRat]
  · rw [h2, h3]
    norm_num [Float64.toRat]

/-- C4, amended. For an eight-digit postal code whose lookup answers 200 with `erro` false and
city `n`, and whose weather request answers 200 with Celsius value `c`, the `/weather` handler
answers 200; and when `c`, `temp_F` and `temp_K` are finite, the body is the object of exactly
the four fields `city = n`, `temp_C = c`, `temp_F = celsiusToFahrenheit c` and
`temp_K = celsiusToKelvin c`, computed in `float64`: `temp_K` is the exact sum `c + 273` rounded
to the nearest `float64`, and `temp_F` is `c * 1.8 + 32` with the constant `1.8`, the product and
the sum each rounded to the nearest `float64` (product and sum rounded together when the compiler
fuses them). These values agree with the exact rational ones within a tolerance: `temp_K` is
within `|c + 273| / 2 ^ 53 + 2 ^ -1075` of `c + 273`, and `temp_F` within
`(|c| * 9 / 5 + 32) / 2 ^ 51 + 2 ^ -1073` of `c * 9 / 5 + 32`. -/
theorem C4_success_body (env : BackEnv) (r : Request) (cep : String)
    (hq : (Query r.RawQuery).Get "cep" = cep) (hcep : IsEightDigits cep)
    (lb wb : Body) (n : String) (c : Float64)
    (hLookup : env.Do (viaCEPURL cep) = .ok { StatusCode := 200, Body := lb })
    (hCity : env.decodeViaCEP lb = .ok { Localidade := n, Erro := false })
    (hWeather : env.Do (weatherURL env n) = .ok { StatusCode := 200, Body := wb })
    (hTemp : env.decodeWeather wb = .ok c) :
    (weatherHandler env r).w.status = some 200 ∧
    ((c.isFinite && (celsiusToFahrenheit env.fusedMulAdd c).isFinite &&
        (celsiusToKelvin c).isFinite) = true →
      (weatherHandler env r).w.body =
        [Chunk.encoded [("city", JValue.str n), ("temp_C", JValue.num c),
          ("temp_F", JValue.num (celsiusToFahrenheit env.fusedMulAdd c)),
          ("temp_K", JValue.num (celsiusToKelvin c))]] ∧
      |(celsiusToKelvin c).toRat - (c.toRat + 273)| ≤ |c.toRat + 273| / 2 ^ 53 + 1 / 2 ^ 1075 ∧
      |(celsiusToFahrenheit env.fusedMulAdd c).toRat - (c.toRat * 9 / 5 + 32)| ≤
        (|c.toRat| * 9 / 5 + 32) / 2 ^ 51 + 1 / 2 ^ 1073) ∧
    (∀ (s : Bool) (a j : Nat), c = Float64.finite s a j →
      celsiusToKelvin c = Float64.roundSum s a j false 273 0 ∧
      celsiusToFahrenheit true c =
        Float64.roundSum s (a * 8106479329266893) (j + 52) false 32 0 ∧
      celsiusToFahrenheit false c =
        (Float64.round s (a * 8106479329266893) (1 <<< (j + 52))).add
          (Float64.finite false 32 0)) := by
  have hf : (fetchCityFromCEP env cep).1 = .ok n :=
    (fetchCityFromCEP_ok_iff env cep n).2 ⟨lb, hLookup, hCity⟩
  have ht : (fetchTemperatureCelsius env n).1 = .ok c := by
    simp [fetchTemperatureCelsius, hWeather, hTemp]
  have hw := weatherHandler_valid env r cep hq hcep
  rw [hf] at hw
  simp only [ht] at hw
  refine ⟨by rw [hw], ?_, ?_⟩
  · intro hfin
    have h3 : c.isFinite = true ∧ (celsiusToFahrenheit env.fusedMulAdd c).isFinite = true ∧
        (celsiusToKelvin c).isFinite = true := by
      simpa [Bool.and_eq_true, and_assoc] using hfin
    refine ⟨?_, celsiusToKelvin_error c h3.1 h3.2.2,
      celsiusToFahrenheit_error env.fusedMulAdd c h3.1 h3.2.1⟩
    rw [hw]
    simp only [hfin, if_true]
  · intro s a j hc
    subst hc
    refine ⟨?_, ?_, ?_⟩
    · simp only [celsiusToKelvin, const_273_1, Float64.add]
    · simp only [celsiusToFahrenheit, const_18_10, const_32_1, Float64.fma, if_true]
      cases s <;> rfl
    · simp only [celsiusToFahrenheit, const_18_10, const_32_1, Float64.mul, Bool.false_eq_true,
        if_false]
      cases s <;> rfl

/-- C4, witness: city `São Paulo` at 25 degrees Celsius gives `temp_F` 77 and `temp_K` 298, with
and without fused multiply-add. -/
theorem C4_success_body_witness :
    (weatherHandler demoBack (getWeather "cep=01001000")).w.status = some 200 ∧
    (weatherHandler demoBack (getWeather "cep=01001000")).w.body =
      [Chunk.encoded [("city", JValue.str "São Paulo"),
        ("temp_C", JValue.num (Float64.finite false 25 0)),
        ("temp_F", JValue.num (Float64.finite false 77 0)),
        ("temp_K", JValue.num (Float64.finite false 298 0))]] ∧
    (weatherHandler (demoBackWith weather25 true) (getWeather "cep=01001000")).w.body =
      [Chunk.encoded [("city", JValue.str "São Paulo"),
        ("temp_C", JValue.num (Float64.finite false 25 0)),
        ("temp_F", JValue.num (Float64.finite false 77 0)),
        ("temp_K", JValue.num (Float64.finite false 298 0))]] :=
  ⟨(C4_success_body demoBack (getWeather "cep=01001000") "01001000" (by decide) (by decide)
      lookupSaoPaulo weather25 "São Paulo" (Float64.finite false 25 0) (by decide) (by decide)
      (by decide) (by decide)).1,
   ((C4_success_body demoBack (getWeather "cep=01001000") "01001000" (by decide) (by decide)
      lookupSaoPaulo weather25 "São Paulo" (Float64.finite false 25 0) (by decide) (by decide)
      (by decide) (by decide)).2.1 (by decide)).1,
   ((C4_success_body (demoBackWith weather25 true) (getWeather "cep=01001000") "01001000"
      (by decide) (by decide) lookupSaoPaulo weather25 "São Paulo" (Float64.finite false 25 0)
      (by decide) (by decide) (by decide) (by decide)).2.1 (by decide)).1⟩

/-- C7. For an eight-digit postal code: a lookup answer with a status `s` other than 200 gives
status 500 and the message `ViaCEP status: s`, whatever the payload is and however it would
decode (also with `erro` true: the outcome is not 404); and when the lookup gives a city, a
weather answer with a status `s` other than 200 gives status 500 and the message
`WeatherAPI status: s`. -/
theorem C7_upstream_status_is_500 (env : BackEnv) (r : Request) (cep : String)
    (hq : (Query r.RawQuery).Get "cep" = cep) (hcep : IsEightDigits cep) :
    (∀ (s : Nat) (lb : Body), s ≠ 200 →
      env.Do (viaCEPURL cep) = .ok { StatusCode := s, Body := lb } →
      (weatherHandler env r).w.status = some 500 ∧
      (weatherHandler env r).w.body =
        [Chunk.encoded [("message", JValue.str ("ViaCEP status: " ++ toString s))]] ∧
      (weatherHandler env r).w.status ≠ some 404) ∧
    (∀ (s : Nat) (lb wb : Body) (city : String),
      env.Do (viaCEPURL cep) = .ok { StatusCode := 200, Body := lb } →
      env.decodeViaCEP lb = .ok { Localidade := city, Erro := false } → s ≠ 200 →
      env.Do (weatherURL env city) = .ok { StatusCode := s, Body := wb } →
      (weatherHandler env r).w.status = some 500 ∧
      (weatherHandler env r).w.body =
        [Chunk.encoded [("message", JValue.str ("WeatherAPI status: " ++ toString s))]]) := by
  have hw := weatherHandler_valid env r cep hq hcep
  refine ⟨?_, ?_⟩
  · intro s lb hs hdo
    have hf : (fetchCityFromCEP env cep).1 =
        .error (GoError.other ("ViaCEP status: " ++ toString s)) := by
      simp [fetchCityFromCEP, hdo, hs]
    rw [hf] at hw
    simp only [GoError.isCEPNotFound, Bool.false_eq_true, if_false, GoError.Error] at hw
    rw [hw]
    simp [message]
  · intro s lb wb city hdo hdec hs hdo2
    have hf : (fetchCityFromCEP env cep).1 = .ok city :=
      (fetchCityFromCEP_ok_iff env cep city).2 ⟨lb, hdo, hdec⟩
    have ht : (fetchTemperatureCelsius env city).1 =
        .error (GoError.other ("WeatherAPI status: " ++ toString s)) := by
      simp [fetchTemperatureCelsius, hdo2, hs]
    rw [hf] at hw
    simp only [ht, GoError.Error] at hw
    rw [hw]
    simp [message]

/-- C7, witness: the lookup of `99999999` answers 503 with the payload `{"erro":true}`, and the
weather request for `Erewhon` answers 400. -/
theorem C7_upstream_status_is_500_witness :
    (weatherHandler demoBack (getWeather "cep=99999999")).w.status = some 500 ∧
    (weatherHandler demoBack (getWeather "cep=99999999")).w.body =
      [Chunk.encoded [("message", JValue.str "ViaCEP status: 503")]] ∧
    (weatherHandler demoBack (getWeather "cep=22222222")).w.body =
      [Chunk.encoded [("message", JValue.str "WeatherAPI status: 400")]] :=
  ⟨((C7_upstream_status_is_500 demoBack (getWeather "cep=99999999") "99999999" (by decide)
      (by decide)).1 503 lookupErro (by decide) (by decide)).1,
   ((C7_upstream_status_is_500 demoBack (getWeather "cep=99999999") "99999999" (by decide)
      (by decide)).1 503 lookupErro (by decide) (by decide)).2.1,
   ((C7_upstream_status_is_500 demoBack (getWeather "cep=22222222") "22222222" (by decide)
      (by decide)).2 400 [Chunk.raw "Erewhon"] [] "Erewhon" (by decide) (by decide) (by decide)
      (by decide)).2⟩


/-- C9. Every request to the `/weather` handler makes its outbound requests in a fixed order
and at most once each: none when the format check fails; the lookup alone when
`fetchCityFromCEP` returns an error, which is the case exactly when the lookup did not answer
200 with a payload that decodes with `erro` false (transport error, other status, undecodable
payload, not found); the lookup and then the weather request for the returned city otherwise.
`WriteHeader` is called exactly once, with 422, 404, 500 or 200. -/
theorem C9_call_order_and_single_response (env : BackEnv) (r : Request) :
    (¬ IsEightDigits ((Query r.RawQuery).Get "cep") → (weatherHandler env r).log = []) ∧
    (IsEightDigits ((Query r.RawQuery).Get "cep") →
      (∀ e, (fetchCityFromCEP env ((Query r.RawQuery).Get "cep")).1 = .error e →
        (weatherHandler env r).log = [Effect.get (viaCEPURL ((Query r.RawQuery).Get "cep"))]) ∧
      (∀ city, (fetchCityFromCEP env ((Query r.RawQuery).Get "cep")).1 = .ok city →
        (weatherHandler env r).log =
          [Effect.get (viaCEPURL ((Query r.RawQuery).Get "cep")),
            Effect.get (weatherURL env city)])) ∧
    (∀ city, (fetchCityFromCEP env ((Query r.RawQuery).Get "cep")).1 = .ok city ↔
      ∃ lb, env.Do (viaCEPURL ((Query r.RawQuery).Get "cep")) =
          .ok { StatusCode := 200, Body := lb } ∧
        env.decodeViaCEP lb = .ok { Localidade := city, Erro := false }) ∧
    (weatherHandler env r).w.headerCalls = 1 ∧
    ((weatherHandler env r).w.status = some 422 ∨ (weatherHandler env r).w.status = some 404 ∨
      (weatherHandler env r).w.status = some 500 ∨ (weatherHandler env r).w.status = some 200) := by
  refine ⟨?_, ?_, fun city => fetchCityFromCEP_ok_iff env _ city, ?_⟩
  · intro hc
    simp [weatherHandler, MatchString_cepPattern_false hc]
  · intro hc
    have hw := weatherHandler_valid env r _ rfl hc
    refine ⟨?_, ?_⟩
    · intro e he
      rw [he] at hw
      rw [hw]
      cases e <;> simp [GoError.isCEPNotFound]
    · intro city hcity
      rw [hcity] at hw
      simp only at hw
      rw [hw]
      split <;> rfl
  · by_cases hc : IsEightDigits ((Query r.RawQuery).Get "cep")
    · have hw := weatherHandler_valid env r _ rfl hc
      rw [hw]
      split
      · split <;> simp
      · split <;> simp
    · simp [weatherHandler, MatchString_cepPattern_false hc, writeHeader_encode]

/-- C9, witness: the logs of a rejected, a not found and a successful request. -/
theorem C9_call_order_and_single_response_witness :
    (weatherHandler demoBack (getWeather "cep=123")).log = [] ∧
    (weatherHandler demoBack (getWeather "cep=00000000")).log =
      [Effect.get "https://viacep.com.br/ws/00000000/json/"] ∧
    (weatherHandler demoBack (getWeather "cep=01001000")).log =
      [Effect.get "https://viacep.com.br/ws/01001000/json/",
        Effect.get "https://api.weatherapi.com/v1/current.json?key=k&q=S%C3%A3o+Paulo"] :=
  ⟨(C9_call_order_and_single_response demoBack (getWeather "cep=123")).1 (by decide),
   ((C9_call_order_and_single_response demoBack (getWeather "cep=00000000")).2.1
      (by decide)).1 GoError.ErrCEPNotFound (by decide),
   ((C9_call_order_and_single_response demoBack (getWeather "cep=01001000")).2.1
      (by decide)).2 "São Paulo" (by decide)⟩

/-- C10, as stated, fails at the last step for a Celsius value whose Fahrenheit value overflows:
the lookup of `11111111` answers `{}`, the weather request for the empty city answers
`temp_c: 1e308`, `temp_F` is `+Inf`, the encoder writes nothing, and the response is 200 with an
empty body, so without a `city` field. -/
theorem C10_overflow_counterexample :
    IsEightDigits "11111111" ∧
    (Query (getWeather "cep=11111111").RawQuery).Get "cep" = "11111111" ∧
    (demoBackWith weather1e308 false).Do (viaCEPURL "11111111") =
      .ok { StatusCode := 200, Body := lookupEmpty } ∧
    (demoBackWith weather1e308 false).decodeViaCEP lookupEmpty =
      .ok { Localidade := "", Erro := false } ∧
    (demoBackWith weather1e308 false).Do (weatherURL (demoBackWith weather1e308 false) "") =
      .ok { StatusCode := 200, Body := weather1e308 } ∧
    (demoBackWith weather1e308 false).decodeWeather weather1e308 =
      .ok (Float64.round false (10 ^ 308) 1) ∧
    celsiusToFahrenheit false (Float64.round false (10 ^ 308) 1) = Float64.inf false ∧
    (weatherHandler (demoBackWith weather1e308 false) (getWeather "cep=11111111")).w.status =
      some 200 ∧
    (weatherHandler (demoBackWith weather1e308 false) (getWeather "cep=11111111")).w.body = [] ∧
    (weatherHandler (demoBackWith weather1e308 true) (getWeather "cep=11111111")).w.body = [] := by
  refine ⟨by decide, by decide, by decide, by decide, by decide, by decide, by decide, by decide,
    by decide, by decide⟩

/-- C10, amended. For an eight-digit postal code whose lookup answers 200 with a payload that
decodes with `erro` false and an empty `localidade`: `fetchCityFromCEP` returns the empty string
and no error, the handler does not answer 404 but requests the weather of the empty city (the
query `q=` is empty), and when that request answers 200 with Celsius value `c` the handler
answers 200, with `city` the empty string in the body whenever `c`, `temp_F` and `temp_K` are
finite. -/
theorem C10_empty_city_is_resolved (env : BackEnv) (r : Request) (cep : String)
    (hq : (Query r.RawQuery).Get "cep" = cep) (hcep : IsEightDigits cep) (lb : Body)
    (hLookup : env.Do (viaCEPURL cep) = .ok { StatusCode := 200, Body := lb })
    (hCity : env.decodeViaCEP lb = .ok { Localidade := "", Erro := false }) :
    (fetchCityFromCEP env cep).1 = .ok "" ∧
    (weatherHandler env r).w.status ≠ some 404 ∧
    (weatherHandler env r).log = [Effect.get (viaCEPURL cep), Effect.get (weatherURL env "")] ∧
    weatherURL env "" =
      "https://api.weatherapi.com/v1/current.json?key=" ++ env.weatherAPIKey ++ "&q=" ∧
    (∀ (wb : Body) (c : Float64),
      env.Do (weatherURL env "") = .ok { StatusCode := 200, Body := wb } →
      env.decodeWeather wb = .ok c →
      (weatherHandler env r).w.status = some 200 ∧
      ((c.isFinite && (celsiusToFahrenheit env.fusedMulAdd c).isFinite &&
          (celsiusToKelvin c).isFinite) = true →
        (weatherHandler env r).w.body =
          [Chunk.encoded [("city", JValue.str ""), ("temp_C", JValue.num c),
            ("temp_F", JValue.num (celsiusToFahrenheit env.fusedMulAdd c)),
            ("temp_K", JValue.num (celsiusToKelvin c))]])) := by
  have hf : (fetchCityFromCEP env cep).1 = .ok "" :=
    (fetchCityFromCEP_ok_iff env cep "").2 ⟨lb, hLookup, hCity⟩
  have hw := weatherHandler_valid env r cep hq hcep
  rw [hf] at hw
  simp only at hw
  refine ⟨hf, ?_, ?_, ?_, ?_⟩
  · rw [hw]
    split <;> simp
  · rw [hw]
    split <;> rfl
  · simp [weatherURL, QueryEscape]
  · intro wb c hdo hdec
    have ht : (fetchTemperatureCelsius env "").1 = .ok c := by
      simp [fetchTemperatureCelsius, hdo, hdec]
    simp only [ht] at hw
    rw [hw]
    refine ⟨rfl, ?_⟩
    intro hfin
    simp only [hfin, if_true]

/-- C10, witness: the lookup of `11111111` answers `{}`; the handler answers 200 with an empty
city and 25 degrees. -/
theorem C10_empty_city_is_resolved_witness :
    (weatherHandler demoBack (getWeather "cep=11111111")).w.status = some 200 ∧
    (weatherHandler demoBack (getWeather "cep=11111111")).w.body =
      [Chunk.encoded [("city", JValue.str ""),
        ("temp_C", JValue.num (Float64.finite false 25 0)),
        ("temp_F", JValue.num (Float64.finite false 77 0)),
        ("temp_K", JValue.num (Float64.finite false 298 0))]] ∧
    (weatherHandler demoBack (getWeather "cep=11111111")).log =
      [Effect.get "https://viacep.com.br/ws/11111111/json/",
        Effect.get "https://api.weatherapi.com/v1/current.json?key=k&q="] :=
  ⟨((C10_empty_city_is_resolved demoBack (getWeather "cep=11111111") "11111111" (by decide)
      (by decide) lookupEmpty (by decide) (by decide)).2.2.2.2 weather25
      (Float64.finite false 25 0) (by decide) (by decide)).1,
   ((C10_empty_city_is_resolved demoBack (getWeather "cep=11111111") "11111111" (by decide)
      (by decide) lookupEmpty (by decide) (by decide)).2.2.2.2 weather25
      (Float64.finite false 25 0) (by decide) (by decide)).2 (by decide),
   (C10_empty_city_is_resolved demoBack (getWeather "cep=11111111") "11111111" (by decide)
      (by decide) lookupEmpty (by decide) (by decide)).2.2.1⟩

/-! ### The URL built by `callServiceB`, read back by the `/weather` handler -/

theorem cut_of_not_mem (sep : Char) (l : List Char) (h : sep ∉ l) : cut sep l = (l, []) := by
  induction l with
  | nil => rfl
  | cons c cs ih =>
    have hc : c ≠ sep := fun e => h (by simp [e])
    have hcs : sep ∉ cs := fun e => h (by simp [e])
    simp [cut, hc, ih hcs]

theorem cut_append_sep (sep : Char) (a b : List Char) (h : sep ∉ a) :
    cut sep (a ++ sep :: b) = (a, b) := by
  induction a with
  | nil => simp [cut]
  | cons c cs ih =>
    have hc : c ≠ sep := fun e => h (by simp [e])
    have hcs : sep ∉ cs := fun e => h (by simp [e])
    simp [cut, hc, ih hcs]

theorem splitOnChar_of_not_mem (sep : Char) (l : List Char) (h : sep ∉ l) :
    splitOnChar sep l = [l] := by
  induction l with
  | nil => rfl
  | cons c cs ih =>
    have hc : c ≠ sep := fun e => h (by simp [e])
    have hcs : sep ∉ cs := fun e => h (by simp [e])
    simp [splitOnChar, hc, ih hcs]

/-- A list of ASCII digits contains none of the characters that URL parsing treats specially. -/
theorem digits_not_special (l : List Char) (h : ∀ c ∈ l, '0' ≤ c ∧ c ≤ '9') :
    '#' ∉ l ∧ '?' ∉ l ∧ '&' ∉ l ∧ ';' ∉ l ∧ '=' ∉ l ∧ '%' ∉ l ∧ '+' ∉ l :=
  ⟨fun m => absurd (h _ m).1 (by decide), fun m => absurd (h _ m).2 (by decide),
   fun m => absurd (h _ m).1 (by decide), fun m => absurd (h _ m).2 (by decide),
   fun m => absurd (h _ m).2 (by decide), fun m => absurd (h _ m).1 (by decide),
   fun m => absurd (h _ m).1 (by decide)⟩

theorem utf8Bytes_ascii (c : Char) (h : c.toNat < 128) : utf8Bytes c = [c.toNat] := by
  have h1 : c.val ≤ 0x7f := by
    show c.val.toNat ≤ 127
    exact Nat.lt_succ_iff.mp h
  simp [utf8Bytes, String.utf8EncodeChar, h1]
  show c.val.toNat % 256 = c.val.toNat
  exact Nat.mod_eq_of_lt (by have : c.val.toNat = c.toNat := rfl; omega)

theorem decodeRunes_digits (l : List Char) (h : ∀ c ∈ l, '0' ≤ c ∧ c ≤ '9') :
    decodeRunes 0 (l.map Char.toNat) = l := by
  induction l with
  | nil => rfl
  | cons c cs ih =>
    have hc : c.toNat ≤ 57 := (h c (by simp)).2
    have h2 : c.toNat < 128 := by omega
    simp [decodeRunes, DecodeRune, h2, ih (fun d hd => h d (by simp [hd]))]

theorem unescapeBytes_digits (l : List Char) (h : ∀ c ∈ l, '0' ≤ c ∧ c ≤ '9') :
    unescapeBytes l = some (l.map Char.toNat) := by
  induction l with
  | nil => rfl
  | cons c cs ih =>
    have hc : c.toNat ≤ 57 := (h c (by simp)).2
    have hc1 : c ≠ '%' := fun e => absurd (h c (by simp)).1 (by rw [e]; decide)
    have hc2 : c ≠ '+' := fun e => absurd (h c (by simp)).1 (by rw [e]; decide)
    unfold unescapeBytes
    simp [hc1, hc2, ih (fun d hd => h d (by simp [hd])), utf8Bytes_ascii c (by omega)]

/-- Unescaping works on bytes: `%C3%A3` is the one rune `ã`, `%0A` a newline, a lone `%FF` and
a truncated encoding read as `RuneError`, and a malformed escape is an error. -/
theorem QueryUnescape_examples :
    QueryUnescape "%C3%A3".data = some ['ã'] ∧
    QueryUnescape "S%C3%A3o+Paulo".data = some "São Paulo".data ∧
    QueryUnescape "01001000%0A".data = some "01001000\n".data ∧
    QueryUnescape "%FF".data = some [RuneError] ∧
    QueryUnescape "%E3%81".data = some [RuneError, RuneError] ∧
    QueryUnescape "%F0%9F%98%80".data = some [Char.ofNat 0x1F600] ∧
    QueryUnescape "%zz".data = none ∧
    QueryUnescape "%a".data = none := by
  decide

/-- Unescaping leaves a string of ASCII digits as it is. -/
theorem QueryUnescape_digits (l : List Char) (h : ∀ c ∈ l, '0' ≤ c ∧ c ≤ '9') :
    QueryUnescape l = some l := by
  simp [QueryUnescape, unescapeBytes_digits l h, decodeRunes_digits l h]

/-- The raw query `cep=` followed by digits has the digits as its parameter `cep`. -/
theorem Query_Get_cep_digits (cep : String) (h : ∀ c ∈ cep.data, '0' ≤ c ∧ c ≤ '9') :
    (Query (String.mk ('c' :: 'e' :: 'p' :: '=' :: cep.data))).Get "cep" = cep := by
  obtain ⟨_, _, hamp, hsemi, heq, hpct, hplus⟩ := digits_not_special cep.data h
  have hsplit : splitOnChar '&' ('c' :: 'e' :: 'p' :: '=' :: cep.data) =
      [('c' :: 'e' :: 'p' :: '=' :: cep.data)] :=
    splitOnChar_of_not_mem _ _ (by simp [hamp])
  have hcut : cut '=' ('c' :: 'e' :: 'p' :: '=' :: cep.data) = (['c', 'e', 'p'], cep.data) :=
    cut_append_sep '=' ['c', 'e', 'p'] cep.data (by decide)
  have hkey : QueryUnescape ['c', 'e', 'p'] = some ['c', 'e', 'p'] := by decide
  have hval : QueryUnescape cep.data = some cep.data := QueryUnescape_digits _ h
  have hpair : parsePair ('c' :: 'e' :: 'p' :: '=' :: cep.data) =
      some (String.mk ['c', 'e', 'p'], String.mk cep.data) := by
    simp [parsePair, hsemi, hcut, hkey, hval]
  have hk : (String.mk ['c', 'e', 'p'] == "cep") = true := by decide
  simp only [Query, hsplit, List.filterMap_cons, hpair, List.filterMap_nil, Values.Get,
    List.find?_cons, hk]

/-- The raw query of the URL built by `callServiceB`, for a base without `?` and `#`. -/
theorem rawQueryOf_serviceBURL (env : FrontEnv) (cep : String)
    (hbase : '?' ∉ env.SERVICE_B_URL.data ∧ '#' ∉ env.SERVICE_B_URL.data)
    (h : ∀ c ∈ cep.data, '0' ≤ c ∧ c ≤ '9') :
    rawQueryOf (serviceBURL env cep) = String.mk ('c' :: 'e' :: 'p' :: '=' :: cep.data) := by
  obtain ⟨hhash, hqm, _⟩ := digits_not_special cep.data h
  have hb : ∃ base : String, '?' ∉ base.data ∧ '#' ∉ base.data ∧
      serviceBURL env cep = base ++ "/weather?cep=" ++ cep := by
    by_cases he : env.SERVICE_B_URL = ""
    · exact ⟨"http://service-b:8082", by decide, by decide, by simp [serviceBURL, he]⟩
    · exact ⟨env.SERVICE_B_URL, hbase.1, hbase.2, by simp [serviceBURL, he]⟩
  obtain ⟨base, hb1, hb2, hurl⟩ := hb
  have hdata : (serviceBURL env cep).data =
      (base.data ++ ['/', 'w', 'e', 'a', 't', 'h', 'e', 'r']) ++
        '?' :: ('c' :: 'e' :: 'p' :: '=' :: cep.data) := by
    rw [hurl]
    simp [String.data_append]
  have h1 : cut '#' (serviceBURL env cep).data = ((serviceBURL env cep).data, []) := by
    apply cut_of_not_mem
    rw [hdata]
    simp [hb2, hhash]
  have h2 : cut '?' (serviceBURL env cep).data =
      (base.data ++ ['/', 'w', 'e', 'a', 't', 'h', 'e', 'r'],
        'c' :: 'e' :: 'p' :: '=' :: cep.data) := by
    rw [hdata]
    apply cut_append_sep
    simp [hb1]
  simp [rawQueryOf, h1, h2]

/-- C8, as stated, fails for a configured base address that carries a query of its own: with
`SERVICE_B_URL` set to `http://service-b:8082/weather?cep=1&x=`, a POST with the valid code
`01001000` passes the checks of the front service and the delegation succeeds, yet the back
service reads `cep` as `1`, answers 422, and the front service relays 422. -/
theorem C8_query_in_base_counterexample :
    (postCep (cepBody "01001000")).Method = "POST" ∧
    (demoFrontOf "http://service-b:8082/weather?cep=1&x=").decodeCEP
      (postCep (cepBody "01001000")).Body = .ok "01001000" ∧
    MatchString cepPattern "01001000" = true ∧
    serviceBURL (demoFrontOf "http://service-b:8082/weather?cep=1&x=") "01001000" =
      "http://service-b:8082/weather?cep=1&x=/weather?cep=01001000" ∧
    (demoFrontOf "http://service-b:8082/weather?cep=1&x=").Do
        "http://service-b:8082/weather?cep=1&x=/weather?cep=01001000" =
      .ok (serveWeather demoBack
        "http://service-b:8082/weather?cep=1&x=/weather?cep=01001000").w.response ∧
    (Query (rawQueryOf
      "http://service-b:8082/weather?cep=1&x=/weather?cep=01001000")).Get "cep" = "1" ∧
    (serveWeather demoBack
      "http://service-b:8082/weather?cep=1&x=/weather?cep=01001000").w.status = some 422 ∧
    (cepHandler (demoFrontOf "http://service-b:8082/weather?cep=1&x=")
      (postCep (cepBody "01001000"))).w.status = some 422 := by
  refine ⟨by decide, by decide, by decide, by decide, rfl, by decide, by decide, by decide⟩

/-- C8, amended. When the configured base address of the back service contains no `?` and no
`#` (the default does not), then for every POST to `/cep` that passes the decoding and format
checks and whose request for the URL built by `callServiceB` is answered by the `/weather`
handler: the parameter `cep` that handler reads equals the validated code, its format check
passes, it does not answer 422, and the status the front service relays is 200, 404 or 500. -/
theorem C8_composed_never_422 (fenv : FrontEnv) (benv : BackEnv) (r : Request) (cep : String)
    (hbase : '?' ∉ fenv.SERVICE_B_URL.data ∧ '#' ∉ fenv.SERVICE_B_URL.data)
    (hm : r.Method = "POST") (hd : fenv.decodeCEP r.Body = .ok cep)
    (hfmt : MatchString cepPattern cep = true)
    (hDo : fenv.Do (serviceBURL fenv cep) =
      .ok (serveWeather benv (serviceBURL fenv cep)).w.response) :
    (Query (rawQueryOf (serviceBURL fenv cep))).Get "cep" = cep ∧
    MatchString cepPattern ((Query (rawQueryOf (serviceBURL fenv cep))).Get "cep") = true ∧
    (serveWeather benv (serviceBURL fenv cep)).w.status ≠ some 422 ∧
    (cepHandler fenv r).w.status = (serveWeather benv (serviceBURL fenv cep)).w.status ∧
    (cepHandler fenv r).w.body = (serveWeather benv (serviceBURL fenv cep)).w.body ∧
    ((cepHandler fenv r).w.status = some 200 ∨ (cepHandler fenv r).w.status = some 404 ∨
      (cepHandler fenv r).w.status = some 500) := by
  have hc : IsEightDigits cep := (MatchString_cepPattern cep).1 hfmt
  have hq : (Query (rawQueryOf (serviceBURL fenv cep))).Get "cep" = cep := by
    rw [rawQueryOf_serviceBURL fenv cep hbase hc.2]
    exact Query_Get_cep_digits cep hc.2
  have hw : serveWeather benv (serviceBURL fenv cep) = _ :=
    weatherHandler_valid benv
      { Method := "GET", RawQuery := rawQueryOf (serviceBURL fenv cep), Body := [] } cep hq hc
  have hstat : (serveWeather benv (serviceBURL fenv cep)).w.status = some 200 ∨
      (serveWeather benv (serviceBURL fenv cep)).w.status = some 404 ∨
      (serveWeather benv (serviceBURL fenv cep)).w.status = some 500 := by
    rw [hw]
    split
    · split <;> simp
    · split <;> simp
  have hrelay : (cepHandler fenv r).w.status =
        (serveWeather benv (serviceBURL fenv cep)).w.status ∧
      (cepHandler fenv r).w.body = (serveWeather benv (serviceBURL fenv cep)).w.body := by
    have hsome : ∃ st, (serveWeather benv (serviceBURL fenv cep)).w.status = some st := by
      rcases hstat with h | h | h <;> exact ⟨_, h⟩
    obtain ⟨st, hst⟩ := hsome
    simp [cepHandler, hm, hd, hfmt, callServiceB, hDo, writeHeader_copy,
      ResponseWriter.response, hst]
  refine ⟨hq, by rw [hq]; exact hfmt, ?_, hrelay.1, hrelay.2, ?_⟩
  · rcases hstat with h | h | h <;> simp [h]
  · rw [hrelay.1]
    exact hstat

/-- C8, witness: with the default base address and with `http://10.0.0.7:8082`, through both
services, for a known, an unknown and a failing postal code. -/
theorem C8_composed_never_422_witness :
    (cepHandler (demoFrontOf "") (postCep (cepBody "01001000"))).w.status = some 200 ∧
    (cepHandler (demoFrontOf "http://10.0.0.7:8082")
      (postCep (cepBody "00000000"))).w.status = some 404 ∧
    (cepHandler (demoFrontOf "") (postCep (cepBody "99999999"))).w.status = some 500 ∧
    (Query (rawQueryOf (serviceBURL (demoFrontOf "") "01001000"))).Get "cep" = "01001000" := by
  have h1 := C8_composed_never_422 (demoFrontOf "") demoBack (postCep (cepBody "01001000"))
    "01001000" (by decide) (by decide) (by decide) (by decide) rfl
  have h2 := C8_composed_never_422 (demoFrontOf "http://10.0.0.7:8082") demoBack
    (postCep (cepBody "00000000")) "00000000" (by decide) (by decide) (by decide) (by decide)
    rfl
  have h3 := C8_composed_never_422 (demoFrontOf "") demoBack (postCep (cepBody "99999999"))
    "99999999" (by decide) (by decide) (by decide) (by decide) rfl
  refine ⟨?_, ?_, ?_, h1.1⟩
  · rw [h1.2.2.2.1]; decide
  · rw [h2.2.2.2.1]; decide
  · rw [h3.2.2.2.1]; decide

end CepWeather
